import Mathlib

/-!
Verification development for the sims_coordUtils camera-projection pipeline.

The repository ships the unit tests (tests/testCameraUtils.py, tests/testAstrometry.py)
and the LSST-camera accessor (python/lsst/sims/coordUtils/LsstCameraMethod.py).
The Camera Projection Engine and the Astrometric Reduction Engine bodies are not in
the source tree, so they are modelled here from the specification, with every
observable detail (validation order, error messages, NaN handling, broadcast rules)
pinned to what the shipped tests assert.  Floating-point values are modelled as
rationals; a NaN or missing (None) value is modelled as `Option.none`.
-/

set_option maxHeartbeats 1000000
set_option linter.unusedVariables false

/-- A scalar coordinate value: `none` models NaN (or Python `None`). -/
abbrev Val := Option ℚ

/-- Modelled from the spec: the degrees-to-radians conversion factor used by the
degree-form wrappers (`np.radians`).  A fixed positive rational stands in for the
irrational pi/180; every claim proved below is invariant under its exact value. -/
def degRad : ℚ := 355 / 20340

/-- Modelled from the spec: the arcseconds-to-radians conversion factor
(`radiansFromArcsec` from lsst.sims.utils), one degree being 3600 arcseconds. -/
def arcsecRad : ℚ := degRad / 3600

/-- Modelled from the spec: `radiansFromArcsec` of lsst.sims.utils. -/
def radiansFromArcsec (a : ℚ) : ℚ := a * arcsecRad

/-- Modelled from the spec: one detector of the camera-model collaborator —
a name, a focal-plane center (mm), a pixel-frame bounding box, and the
forward/inverse nonlinear distortion maps acting in the pixel frame. -/
structure Detector where
  dname : String
  cenX : ℚ
  cenY : ℚ
  pixMinX : ℚ
  pixMaxX : ℚ
  pixMinY : ℚ
  pixMaxY : ℚ
  distort : ℚ × ℚ → ℚ × ℚ
  undistort : ℚ × ℚ → ℚ × ℚ

/-- Modelled from the spec: the camera-model collaborator — a deterministic
enumeration of detectors, the fixed plate scale (pupil radians per focal-plane mm)
and the pixel pitch (mm per pixel). -/
structure Camera where
  detectors : List Detector
  radPerMm : ℚ
  mmPerPixel : ℚ

/-- Center of a detector bounding box along pixel x. -/
def Detector.pixCenX (d : Detector) : ℚ := (d.pixMinX + d.pixMaxX) / 2

/-- Center of a detector bounding box along pixel y. -/
def Detector.pixCenY (d : Detector) : ℚ := (d.pixMinY + d.pixMaxY) / 2

/-- Point-in-bounding-box test in a detector's own pixel frame. -/
def inBBox (d : Detector) (p : ℚ × ℚ) : Bool :=
  decide (d.pixMinX ≤ p.1) && decide (p.1 ≤ d.pixMaxX) &&
  decide (d.pixMinY ≤ p.2) && decide (p.2 ≤ d.pixMaxY)

/-- Modelled from the spec: the fixed global plate-scale map from pupil radians
to focal-plane millimeters (`focalPlaneCoordsFromPupilCoords` core). -/
def focalFromPupil (c : Camera) (p : ℚ × ℚ) : ℚ × ℚ :=
  (p.1 / c.radPerMm, p.2 / c.radPerMm)

/-- Modelled from the spec: the linear (distortion-free, TAN_PIXELS) placement of a
pupil point in one detector's pixel frame.  The pixel x axis runs along the read-out
direction, so positive pixel x corresponds to positive pupil y and positive pixel y
to negative pupil x (the axis-swap convention documented in the tests). -/
def tanPixFromPupil (c : Camera) (d : Detector) (p : ℚ × ℚ) : ℚ × ℚ :=
  let f := focalFromPupil c p
  (d.pixCenX + (f.2 - d.cenY) / c.mmPerPixel,
   d.pixCenY - (f.1 - d.cenX) / c.mmPerPixel)

/-- Modelled from the spec: a detector's forward pixel transform — the linear
placement, followed by the detector's distortion map when requested. -/
def pixelFromPupil (c : Camera) (d : Detector) (incl : Bool) (p : ℚ × ℚ) : ℚ × ℚ :=
  let t := tanPixFromPupil c d p
  if incl then d.distort t else t

/-- Modelled from the spec: a detector's inverse pixel transform — undo the
distortion when requested, then invert the linear placement and plate scale. -/
def pupilFromPixel (c : Camera) (d : Detector) (incl : Bool) (p : ℚ × ℚ) : ℚ × ℚ :=
  let t := if incl then d.undistort p else p
  let xf := d.cenX - (t.2 - d.pixCenY) * c.mmPerPixel
  let yf := d.cenY + (t.1 - d.pixCenX) * c.mmPerPixel
  (xf * c.radPerMm, yf * c.radPerMm)

/-- Modelled from the spec: chip lookup for one pupil point — the first detector in
the camera's enumeration order whose bounding box (in its own pixel frame, via the
inverse pixel transform) contains the point. -/
def chipOfPoint (c : Camera) (x y : ℚ) : Option Detector :=
  c.detectors.find? (fun d => inBBox d (tanPixFromPupil c d (x, y)))

/-- The name of the detector found by chip lookup, absent on a miss. -/
def chipNameOfPoint (c : Camera) (x y : ℚ) : Option String :=
  (chipOfPoint c x y).map Detector.dname

/-- Chip lookup lifted to NaN-capable values: a NaN input yields an absent name. -/
def chipNameVal (c : Camera) : Val → Val → Option String
  | some x, some y => chipNameOfPoint c x y
  | _, _ => none

/-- Retrieve a detector by name from the camera model. -/
def findDet (c : Camera) (nm : String) : Option Detector :=
  c.detectors.find? (fun d => d.dname == nm)

/-- Per-point pixel computation: NaN inputs or an absent chip name yield NaN pixel
coordinates; otherwise the named detector's forward pixel transform is applied. -/
def pixelVal (c : Camera) (incl : Bool) (xv yv : Val) (chip : Option String) :
    Val × Val :=
  match xv, yv, chip with
  | some x, some y, some nm =>
    match findDet c nm with
    | some d =>
      let q := pixelFromPupil c d incl (x, y)
      (some q.1, some q.2)
    | none => (none, none)
  | _, _, _ => (none, none)

/-- Per-point pixel computation with the detector resolved by chip lookup. -/
def pixelPointAuto (c : Camera) (incl : Bool) (xv yv : Val) : Val × Val :=
  pixelVal c incl xv yv (chipNameVal c xv yv)

/-- Per-point focal-plane computation: NaN inputs propagate to NaN. -/
def focalVal (c : Camera) (xv yv : Val) : Val × Val :=
  match xv, yv with
  | some x, some y =>
    let f := focalFromPupil c (x, y)
    (some f.1, some f.2)
  | _, _ => (none, none)

/-- Per-point inverse pixel computation: NaN pixel inputs or an absent chip name
yield NaN pupil coordinates. -/
def pupilFromPixVal (c : Camera) (incl : Bool) (xv yv : Val) (chip : Option String) :
    Val × Val :=
  match xv, yv, chip with
  | some x, some y, some nm =>
    match findDet c nm with
    | some d =>
      let q := pupilFromPixel c d incl (x, y)
      (some q.1, some q.2)
    | none => (none, none)
  | _, _, _ => (none, none)

/-- Modelled from the spec: the per-element behavior of the external sky-to-pupil
map (`pupilCoordsFromRaDec` of lsst.sims.utils, an external collaborator): a NaN
or missing RA or Dec yields NaN pupil coordinates without raising. -/
def skyVal (sky : ℚ → ℚ → ℚ × ℚ) (rv dv : Val) : Val × Val :=
  match rv, dv with
  | some r, some d => (some (sky r d).1, some (sky r d).2)
  | _, _ => (none, none)

/-- A numeric argument as received by a Python entry point: a scalar, a numpy
array, or a plain Python list (the rejected container type). -/
inductive PyArg where
  | scalar (v : Val)
  | npArr (vs : List Val)
  | pyList (vs : List Val)

/-- Whether the argument is a plain Python list. -/
def PyArg.isPyList : PyArg → Bool
  | .pyList _ => true
  | _ => false

/-- Whether the argument is a scalar. -/
def PyArg.isScalar : PyArg → Bool
  | .scalar _ => true
  | _ => false

/-- The values carried by an argument; a scalar is promoted to a length-1 array. -/
def PyArg.vals : PyArg → List Val
  | .scalar v => [v]
  | .npArr vs => vs
  | .pyList vs => vs

/-- Modelled from the spec: `np.radians` applied to an entry-point argument by the
degree-form wrappers.  It scales every element and casts a plain list into a
numpy array (the cast the tests document). -/
def degToRadArg : PyArg → PyArg
  | .scalar v => .scalar (v.map (fun q => q * degRad))
  | .npArr vs => .npArr (vs.map (Option.map (fun q => q * degRad)))
  | .pyList vs => .npArr (vs.map (Option.map (fun q => q * degRad)))

/-- The `chipNames` keyword argument: omitted, a single name, or a list of
(possibly absent) names. -/
inductive ChipArg where
  | auto
  | one (s : String)
  | many (l : List (Option String))

/-- Result shape of the chip-name entry points. -/
inductive NameOut where
  | scalar (n : Option String)
  | arr (ns : List (Option String))
deriving DecidableEq

/-- Result shape of the coordinate entry points: per-point (x, y) pairs. -/
inductive CoordOut where
  | scalar (x y : Val)
  | arr (ps : List (Val × Val))
deriving DecidableEq

/-- Demote the result to a scalar exactly when every input was scalar. -/
def mkNameOut (b : Bool) (ns : List (Option String)) : NameOut :=
  if b then .scalar (ns.headD none) else .arr ns

/-- Demote the result pair to scalars exactly when every input was scalar. -/
def mkCoordOut (b : Bool) (ps : List (Val × Val)) : CoordOut :=
  if b then .scalar (ps.headD (none, none)).1 (ps.headD (none, none)).2 else .arr ps

/-- The length-mismatch message of chipNameFromPupilCoords, as asserted verbatim
by tests/testCameraUtils.py; it reports no lengths. -/
def chipPupLenMsg : String :=
  "The arrays input to chipNameFromPupilCoords all need to have the same length"

/-- The length-mismatch message of chipNameFromRaDec, as asserted by the tests. -/
def chipRaDecLenMsg : String :=
  "The arrays input to chipNameFromRaDec all need to have the same length"

/-- The missing-camera message of the chipName entry points. -/
def noCameraChipMsg : String := "No camera defined.  Cannot run chipName."

/-- The missing-camera message of the pixelCoords entry points. -/
def noCameraPixMsg : String :=
  "Camera not specified.  Cannot calculate pixel coordinates."

/-- The length-mismatch message of pixelCoordsFromPupilCoords, as asserted by the
tests; it reports no lengths. -/
def pixPupLenMsg : String :=
  "The arrays input to pixelCoordsFromPupilCoords all need to have the same length"

/-- The length-mismatch message of pixelCoordsFromRaDec: both lengths reported. -/
def pixRaDecLenMsg (n m : Nat) : String :=
  "You passed " ++ toString n ++ " RA and " ++ toString m ++
  " Dec coordinates to pixelCoordsFromRaDec"

/-- The bad-chipNames-count message of the forward pixel routines: both counts
reported, as asserted by the tests. -/
def chipCountMsg (fname : String) (n m : Nat) : String :=
  "You passed " ++ toString n ++ " points but " ++ toString m ++
  " chipNames to " ++ fname

/-- Modelled from the spec: resolution of the `chipNames` argument of the forward
pixel routines.  Omitted: per-point chip lookup; a single name (or a length-1
list): broadcast to all points; a list of the point count: used as is; any other
length: an input-error reporting both counts. -/
def resolveChips (c : Camera) (fname : String) (pts : List (Val × Val)) :
    ChipArg → Except String (List (Option String))
  | .auto => .ok (pts.map (fun p => chipNameVal c p.1 p.2))
  | .one s => .ok (List.replicate pts.length (some s))
  | .many l =>
    if l.length = pts.length then .ok l
    else if l.length = 1 then .ok (List.replicate pts.length (l.headD none))
    else .error (chipCountMsg fname pts.length l.length)

/-- Modelled from the spec: resolution of the required chip-name argument of the
inverse pixel routines (a name, or a list matched against the point count). -/
def resolvePixChips (fname : String) (n : Nat) :
    ChipArg → Except String (List (Option String))
  | .auto => .error ("You must specify chipNames in " ++ fname)
  | .one s => .ok (List.replicate n (some s))
  | .many l =>
    if l.length = n then .ok l
    else if l.length = 1 then .ok (List.replicate n (l.headD none))
    else .error ("You passed " ++ toString n ++ " pixel coordinate pairs but " ++
      toString l.length ++ " chip names to " ++ fname)

/-- The observation context: pointing, time and sky rotation, each possibly absent. -/
structure ObsMeta where
  pointingRA : Option ℚ
  pointingDec : Option ℚ
  mjd : Option ℚ
  rotSkyPos : Option ℚ

/-- Modelled from the spec: `chipNameFromPupilCoords` — validation (container
types, matching lengths, camera present) followed by per-point chip lookup, with
error messages as asserted by tests/testCameraUtils.py. -/
def chipNameFromPupilCoords (camera : Option Camera) (xPupil yPupil : PyArg) :
    Except String NameOut :=
  if xPupil.isPyList then .error "The arg xPupil is not a numpy array"
  else if yPupil.isPyList then .error "The input arguments: yPupil are not numpy arrays"
  else if xPupil.vals.length = yPupil.vals.length then
    match camera with
    | none => .error noCameraChipMsg
    | some c =>
      .ok (mkNameOut (xPupil.isScalar && yPupil.isScalar)
        ((xPupil.vals.zip yPupil.vals).map (fun p => chipNameVal c p.1 p.2)))
  else .error chipPupLenMsg

/-- Modelled from the spec: the radians form `_chipNameFromRaDec` — validation
(container types, lengths, observation context with mjd and rotSkyPos, camera)
then the external sky-to-pupil map followed by chip lookup, per point. -/
def _chipNameFromRaDec (sky : ℚ → ℚ → ℚ × ℚ) (camera : Option Camera)
    (obs : Option ObsMeta) (epoch : Option ℚ) (ra dec : PyArg) :
    Except String NameOut :=
  if ra.isPyList then .error "The arg ra is not a numpy array"
  else if dec.isPyList then .error "The input arguments: Dec are not numpy arrays"
  else if ra.vals.length = dec.vals.length then
    match obs with
    | none => .error "You need to pass an ObservationMetaData into chipName"
    | some o =>
      if o.mjd.isNone then
        .error "You need to pass an ObservationMetaData with an mjd into chipName"
      else if o.rotSkyPos.isNone then
        .error "You need to pass an ObservationMetaData with a rotSkyPos into chipName"
      else
        match camera with
        | none => .error noCameraChipMsg
        | some c =>
          .ok (mkNameOut (ra.isScalar && dec.isScalar)
            ((ra.vals.zip dec.vals).map (fun p =>
              let q := skyVal sky p.1 p.2
              chipNameVal c q.1 q.2)))
  else .error chipRaDecLenMsg

/-- Modelled from the spec: the degrees form `chipNameFromRaDec`, a thin wrapper
converting its inputs with `np.radians` and delegating to the radians form. -/
def chipNameFromRaDec (sky : ℚ → ℚ → ℚ × ℚ) (camera : Option Camera)
    (obs : Option ObsMeta) (epoch : Option ℚ) (ra dec : PyArg) :
    Except String NameOut :=
  _chipNameFromRaDec sky camera obs epoch (degToRadArg ra) (degToRadArg dec)

/-- Modelled from the spec: `pixelCoordsFromPupilCoords` — validation, chipNames
resolution (lookup, broadcast, or count check), then the per-point forward pixel
transform; an unresolved detector or NaN input yields NaN pixel coordinates. -/
def pixelCoordsFromPupilCoords (camera : Option Camera) (chips : ChipArg)
    (incl : Bool) (xPupil yPupil : PyArg) : Except String CoordOut :=
  if xPupil.isPyList then .error "The arg xPupil is not a numpy array"
  else if yPupil.isPyList then .error "The input arguments: yPupil are not numpy arrays"
  else if xPupil.vals.length = yPupil.vals.length then
    match camera with
    | none => .error noCameraPixMsg
    | some c =>
      let pts := xPupil.vals.zip yPupil.vals
      match resolveChips c "pixelCoordsFromPupilCoords" pts chips with
      | .error e => .error e
      | .ok names =>
        .ok (mkCoordOut (xPupil.isScalar && yPupil.isScalar)
          (List.zipWith (fun p nm => pixelVal c incl p.1 p.2 nm) pts names))
  else .error pixPupLenMsg

/-- Modelled from the spec: the radians form `_pixelCoordsFromRaDec` — validation
then the external sky-to-pupil map composed with the forward pixel transform. -/
def _pixelCoordsFromRaDec (sky : ℚ → ℚ → ℚ × ℚ) (camera : Option Camera)
    (obs : Option ObsMeta) (epoch : Option ℚ) (chips : ChipArg) (incl : Bool)
    (ra dec : PyArg) : Except String CoordOut :=
  if ra.isPyList then
    .error "You need to pass numpy arrays of RA and Dec to pixelCoordsFromRaDec"
  else if dec.isPyList then
    .error "You need to pass numpy arrays of RA and Dec to pixelCoordsFromRaDec"
  else if ra.vals.length = dec.vals.length then
    match obs with
    | none => .error "You need to pass an ObservationMetaData into pixelCoordsFromRaDec"
    | some o =>
      if o.mjd.isNone then
        .error "You need to pass an ObservationMetaData with an mjd into pixelCoordsFromRaDec"
      else if o.rotSkyPos.isNone then
        .error "You need to pass an ObservationMetaData with a rotSkyPos into pixelCoordsFromRaDec"
      else
        match camera with
        | none => .error noCameraPixMsg
        | some c =>
          let pts := (ra.vals.zip dec.vals).map (fun p => skyVal sky p.1 p.2)
          match resolveChips c "pixelCoordsFromRaDec" pts chips with
          | .error e => .error e
          | .ok names =>
            .ok (mkCoordOut (ra.isScalar && dec.isScalar)
              (List.zipWith (fun p nm => pixelVal c incl p.1 p.2 nm) pts names))
  else .error (pixRaDecLenMsg ra.vals.length dec.vals.length)

/-- Modelled from the spec: the degrees form `pixelCoordsFromRaDec`, a thin
wrapper converting its inputs with `np.radians` and delegating. -/
def pixelCoordsFromRaDec (sky : ℚ → ℚ → ℚ × ℚ) (camera : Option Camera)
    (obs : Option ObsMeta) (epoch : Option ℚ) (chips : ChipArg) (incl : Bool)
    (ra dec : PyArg) : Except String CoordOut :=
  _pixelCoordsFromRaDec sky camera obs epoch chips incl
    (degToRadArg ra) (degToRadArg dec)

/-- Modelled from the spec: `focalPlaneCoordsFromPupilCoords` — validation then
the fixed plate-scale map, per point. -/
def focalPlaneCoordsFromPupilCoords (camera : Option Camera)
    (xPupil yPupil : PyArg) : Except String CoordOut :=
  if xPupil.isPyList || yPupil.isPyList then
    .error "You must pass numpy arrays of xPupil and yPupil to focalPlaneCoordsFromPupilCoords"
  else if xPupil.vals.length = yPupil.vals.length then
    match camera with
    | none => .error "You cannot calculate focal plane coordinates without specifying a camera"
    | some c =>
      .ok (mkCoordOut (xPupil.isScalar && yPupil.isScalar)
        ((xPupil.vals.zip yPupil.vals).map (fun p => focalVal c p.1 p.2)))
  else .error ("You specified " ++ toString xPupil.vals.length ++ " xPupil and " ++
    toString yPupil.vals.length ++ " yPupil coordinates in focalPlaneCoordsFromPupilCoords")

/-- Modelled from the spec: the radians form `_focalPlaneCoordsFromRaDec`. -/
def _focalPlaneCoordsFromRaDec (sky : ℚ → ℚ → ℚ × ℚ) (camera : Option Camera)
    (obs : Option ObsMeta) (epoch : Option ℚ) (ra dec : PyArg) :
    Except String CoordOut :=
  if ra.isPyList || dec.isPyList then
    .error "You must pass numpy arrays of RA and Dec to focalPlaneCoordsFromRaDec"
  else if ra.vals.length = dec.vals.length then
    match obs with
    | none => .error "You have to specify an ObservationMetaData to run focalPlaneCoordsFromRaDec"
    | some o =>
      if o.mjd.isNone then
        .error "You need to pass an ObservationMetaData with an mjd into focalPlaneCoordsFromRaDec"
      else if o.rotSkyPos.isNone then
        .error "You need to pass an ObservationMetaData with a rotSkyPos into focalPlaneCoordsFromRaDec"
      else
        match camera with
        | none => .error "You cannot calculate focal plane coordinates without specifying a camera"
        | some c =>
          .ok (mkCoordOut (ra.isScalar && dec.isScalar)
            ((ra.vals.zip dec.vals).map (fun p =>
              let q := skyVal sky p.1 p.2
              focalVal c q.1 q.2)))
  else .error ("You specified " ++ toString ra.vals.length ++ " RAs and " ++
    toString dec.vals.length ++ " Decs in focalPlaneCoordsFromRaDec")

/-- Modelled from the spec: the degrees form `focalPlaneCoordsFromRaDec`. -/
def focalPlaneCoordsFromRaDec (sky : ℚ → ℚ → ℚ × ℚ) (camera : Option Camera)
    (obs : Option ObsMeta) (epoch : Option ℚ) (ra dec : PyArg) :
    Except String CoordOut :=
  _focalPlaneCoordsFromRaDec sky camera obs epoch (degToRadArg ra) (degToRadArg dec)

/-- Modelled from the spec: `pupilCoordsFromPixelCoords` — the inverse chain from
pixel coordinates to pupil coordinates; a point whose supplied chip name is absent
yields NaN pupil coordinates. -/
def pupilCoordsFromPixelCoords (camera : Option Camera) (chips : ChipArg)
    (incl : Bool) (xPix yPix : PyArg) : Except String CoordOut :=
  if xPix.isPyList || yPix.isPyList then
    .error "You must pass numpy arrays of xPix and yPix to pupilCoordsFromPixelCoords"
  else if xPix.vals.length = yPix.vals.length then
    match camera with
    | none => .error "You cannot call pupilCoordsFromPixelCoords without specifying a camera"
    | some c =>
      let pts := xPix.vals.zip yPix.vals
      match resolvePixChips "pupilCoordsFromPixelCoords" pts.length chips with
      | .error e => .error e
      | .ok names =>
        .ok (mkCoordOut (xPix.isScalar && yPix.isScalar)
          (List.zipWith (fun p nm => pupilFromPixVal c incl p.1 p.2 nm) pts names))
  else .error ("You passed " ++ toString xPix.vals.length ++ " xPix coordinates but " ++
    toString yPix.vals.length ++ " yPix coordinates to pupilCoordsFromPixelCoords")

/-- Modelled from the spec: the radians form `_raDecFromPixelCoords` — the inverse
chain pushed all the way back to observed sky coordinates through the external
inverse sky map, with error messages as asserted by the tests. -/
def _raDecFromPixelCoords (skyInv : ℚ → ℚ → ℚ × ℚ) (camera : Option Camera)
    (obs : Option ObsMeta) (epoch : Option ℚ) (chips : ChipArg) (incl : Bool)
    (xPix yPix : PyArg) : Except String CoordOut :=
  match camera with
  | none => .error "You cannot call raDecFromPixelCoords without specifying a camera"
  | some c =>
    match obs with
    | none => .error "You cannot call raDecFromPixelCoords without an ObservationMetaData"
    | some o =>
      if o.mjd.isNone then
        .error "The ObservationMetaData in raDecFromPixelCoords must have an mjd"
      else if o.rotSkyPos.isNone then
        .error "The ObservationMetaData in raDecFromPixelCoords must have a rotSkyPos"
      else if xPix.isPyList || yPix.isPyList then
        .error "You must pass numpy arrays of xPix and yPix to raDecFromPixelCoords"
      else if xPix.vals.length = yPix.vals.length then
        let pts := xPix.vals.zip yPix.vals
        match resolvePixChips "raDecFromPixelCoords" pts.length chips with
        | .error e => .error e
        | .ok names =>
          .ok (mkCoordOut (xPix.isScalar && yPix.isScalar)
            (List.zipWith (fun p nm =>
              let q := pupilFromPixVal c incl p.1 p.2 nm
              skyVal skyInv q.1 q.2) pts names))
      else .error ("You passed " ++ toString xPix.vals.length ++
        " xPix coordinates but " ++ toString yPix.vals.length ++
        " yPix coordinates to raDecFromPixelCoords")

/-- Convert one value from radians back to degrees (`np.degrees`). -/
def valToDeg (v : Val) : Val := v.map (fun q => q / degRad)

/-- Convert a coordinate result from radians back to degrees. -/
def coordOutToDeg : CoordOut → CoordOut
  | .scalar x y => .scalar (valToDeg x) (valToDeg y)
  | .arr ps => .arr (ps.map (fun p => (valToDeg p.1, valToDeg p.2)))

/-- Modelled from the spec: the degrees form `raDecFromPixelCoords`, delegating to
the radians form and converting its outputs with `np.degrees`. -/
def raDecFromPixelCoords (skyInv : ℚ → ℚ → ℚ × ℚ) (camera : Option Camera)
    (obs : Option ObsMeta) (epoch : Option ℚ) (chips : ChipArg) (incl : Bool)
    (xPix yPix : PyArg) : Except String CoordOut :=
  (_raDecFromPixelCoords skyInv camera obs epoch chips incl xPix yPix).map
    coordOutToDeg

/-- The zenith-distance argument of applyRefraction: a scalar, a numpy array, or
a plain Python list (the rejected container type). -/
inductive ZdArg where
  | zscalar (z : ℚ)
  | zarr (zs : List ℚ)
  | zlist (zs : List ℚ)

/-- Result shape of applyRefraction. -/
inductive ZdOut where
  | zscalar (z : ℚ)
  | zarr (zs : List ℚ)
deriving DecidableEq

/-- Modelled from the spec: `applyRefraction(zenithDistance, tanzCoeff, tan3Coeff)`
of the Reduction Engine.  The two-constant refraction kernel itself is the external
astrometry-kernel collaborator, taken here as the parameter `refr`; a scalar or
numpy-array zenith distance is refracted per element, while a plain Python list is
rejected with an input-error before any per-element computation. -/
def applyRefraction (refr : ℚ → ℚ → ℚ → ℚ) (zd : ZdArg) (tanzCoeff tan3Coeff : ℚ) :
    Except String ZdOut :=
  match zd with
  | .zscalar z => .ok (.zscalar (refr tanzCoeff tan3Coeff z))
  | .zarr zs => .ok (.zarr (zs.map (refr tanzCoeff tan3Coeff)))
  | .zlist _ =>
    .error "applyRefraction accepts numpy arrays or numbers as zenith distance; you passed a list"

/-- An opaque handle standing for the camera object built by `PhosimMapper().camera`;
the tag records which construction produced it, so that object identity is
observable in the model. -/
structure CameraHandle where
  cid : Nat
deriving DecidableEq

/-- The k-th construction of the LSST camera model. -/
def buildCamera (k : Nat) : CameraHandle := ⟨k⟩

/-- The hidden attribute state of the `lsst_camera` function object: the cached
camera (absent before the first call) and the number of constructions so far. -/
structure LsstCameraState where
  cache : Option CameraHandle
  builds : Nat
deriving DecidableEq

/-- Process start: no cached camera, no construction performed. -/
def initLsstState : LsstCameraState := ⟨none, 0⟩

/-- Embedding of `lsst_camera` (LsstCameraMethod.py): if the function object does
not yet carry the `_lsst_camera` attribute, build the camera and store it; then
return the stored camera. -/
def lsst_camera (s : LsstCameraState) : CameraHandle × LsstCameraState :=
  match s.cache with
  | some c => (c, s)
  | none =>
    let c := buildCamera s.builds
    (c, { cache := some c, builds := s.builds + 1 })

/-- The results and final state of n successive calls to `lsst_camera`. -/
def iterateCalls : Nat → LsstCameraState → List CameraHandle × LsstCameraState
  | 0, s => ([], s)
  | n + 1, s =>
    let r := lsst_camera s
    let rest := iterateCalls n r.2
    (r.1 :: rest.1, rest.2)

/-- Convert one value from degrees to radians (`np.radians` on a scalar). -/
def degVal (v : Val) : Val := v.map (fun q => q * degRad)

/-- An observation context carrying a pointing, an mjd and a rotSkyPos. -/
def mkObs (pra pdc : Option ℚ) (m r : ℚ) : ObsMeta :=
  ⟨pra, pdc, some m, some r⟩

/-- The camera-model collaborator contract assumed by the round-trip properties:
positive plate scale and pixel pitch, detector names pairwise distinct, and each
detector's inverse distortion map actually inverting its forward map. -/
def CameraOk (c : Camera) : Prop :=
  0 < c.radPerMm ∧ 0 < c.mmPerPixel ∧
  (c.detectors.map Detector.dname).Nodup ∧
  ∀ d ∈ c.detectors, ∀ p, d.undistort (d.distort p) = p

/-- The central detector of the unit-test camera: 4000 x 4000 pixels centered on
the focal-plane origin, with an exactly invertible distortion map. -/
def det22 : Detector :=
  { dname := "Det22", cenX := 0, cenY := 0,
    pixMinX := 0, pixMaxX := 3999, pixMinY := 0, pixMaxY := 3999,
    distort := fun p => (p.1 + 1/8, p.2 - 1/8),
    undistort := fun p => (p.1 - 1/8, p.2 + 1/8) }

/-- The detector centered 40 mm along focal-plane x. -/
def det32 : Detector :=
  { dname := "Det32", cenX := 40, cenY := 0,
    pixMinX := 0, pixMaxX := 3999, pixMinY := 0, pixMaxY := 3999,
    distort := fun p => (p.1 + 1/16, p.2 - 1/16),
    undistort := fun p => (p.1 - 1/16, p.2 + 1/16) }

/-- The detector centered at (80, -80) mm on the focal plane. -/
def det40 : Detector :=
  { dname := "Det40", cenX := 80, cenY := -80,
    pixMinX := 0, pixMaxX := 3999, pixMinY := 0, pixMaxY := 3999,
    distort := fun p => (p.1 + 1/32, p.2 - 1/32),
    undistort := fun p => (p.1 - 1/32, p.2 + 1/32) }

/-- The unit-test camera (tests/cameraData): three 4000 x 4000 detectors with
centers (0,0), (40,0), (80,-80) mm, plate scale 2 arcsec per mm (0.02 arcsec per
pixel) and 10 microns per pixel. -/
def testCamera : Camera :=
  { detectors := [det22, det32, det40],
    radPerMm := 2 * arcsecRad,
    mmPerPixel := 1/100 }

lemma arcsecRad_pos : 0 < arcsecRad := by norm_num [arcsecRad, degRad]

lemma degRad_pos : 0 < degRad := by norm_num [degRad]

lemma testCamera_ok : CameraOk testCamera := by
  refine ⟨?_, ?_, ?_, ?_⟩
  · norm_num [testCamera, arcsecRad, degRad]
  · norm_num [testCamera]
  · decide
  · intro d hd p
    simp [testCamera] at hd
    obtain ⟨a, b⟩ := p
    rcases hd with h | h | h <;> subst h <;> simp [det22, det32, det40]

@[simp] lemma PyArg.isPyList_scalar (v : Val) : (PyArg.scalar v).isPyList = false := rfl

@[simp] lemma PyArg.isPyList_npArr (vs : List Val) : (PyArg.npArr vs).isPyList = false := rfl

@[simp] lemma PyArg.isPyList_pyList (vs : List Val) : (PyArg.pyList vs).isPyList = true := rfl

@[simp] lemma PyArg.isScalar_scalar (v : Val) : (PyArg.scalar v).isScalar = true := rfl

@[simp] lemma PyArg.isScalar_npArr (vs : List Val) : (PyArg.npArr vs).isScalar = false := rfl

@[simp] lemma PyArg.isScalar_pyList (vs : List Val) : (PyArg.pyList vs).isScalar = false := rfl

@[simp] lemma PyArg.vals_scalar (v : Val) : (PyArg.scalar v).vals = [v] := rfl

@[simp] lemma PyArg.vals_npArr (vs : List Val) : (PyArg.npArr vs).vals = vs := rfl

@[simp] lemma PyArg.vals_pyList (vs : List Val) : (PyArg.pyList vs).vals = vs := rfl

@[simp] lemma mkNameOut_false (ns : List (Option String)) :
    mkNameOut false ns = .arr ns := rfl

@[simp] lemma mkNameOut_true (ns : List (Option String)) :
    mkNameOut true ns = .scalar (ns.headD none) := rfl

@[simp] lemma mkCoordOut_false (ps : List (Val × Val)) :
    mkCoordOut false ps = .arr ps := rfl

@[simp] lemma mkCoordOut_true (ps : List (Val × Val)) :
    mkCoordOut true ps = .scalar (ps.headD (none, none)).1 (ps.headD (none, none)).2 := rfl

lemma zipWith_map_right {α β γ : Type _} (f : α → β → γ) (g : α → β) (l : List α) :
    List.zipWith f l (l.map g) = l.map (fun a => f a (g a)) := by
  induction l with
  | nil => rfl
  | cons a t ih => simp [ih]

lemma zipWith_replicate_right {α β γ : Type _} (f : α → β → γ) (b : β) :
    ∀ (l : List α), List.zipWith f l (List.replicate l.length b) =
      l.map (fun a => f a b)
  | [] => rfl
  | a :: t => by
    simp [List.replicate_succ, zipWith_replicate_right f b t]

lemma zipWith_replicate_ge {α β γ : Type _} (f : α → β → γ) (b : β) :
    ∀ (l : List α) (n : Nat), l.length ≤ n →
      List.zipWith f l (List.replicate n b) = l.map (fun a => f a b)
  | [], n, _ => by simp
  | a :: t, 0, h => by simp at h
  | a :: t, n + 1, h => by
    simp [List.replicate_succ, zipWith_replicate_ge f b t n (by simpa using h)]

lemma map_getD {α β : Type _} (g : α → β) :
    ∀ (xs : List α) (i : Nat), i < xs.length →
      ∀ (da : α) (db : β), (xs.map g).getD i db = g (xs.getD i da)
  | [], i, hi, _, _ => by simp at hi
  | x :: xs, 0, _, da, db => by simp
  | x :: xs, i + 1, hi, da, db => by
    simp only [List.map_cons, List.getD_cons_succ]
    exact map_getD g xs i (by simpa using hi) da db

lemma zip_getD {α β : Type _} :
    ∀ (xs : List α) (ys : List β) (i : Nat), i < xs.length → i < ys.length →
      ∀ (da : α) (db : β),
      (xs.zip ys).getD i (da, db) = (xs.getD i da, ys.getD i db)
  | [], _, i, hx, _, _, _ => by simp at hx
  | _ :: _, [], i, _, hy, _, _ => by simp at hy
  | x :: xs, y :: ys, 0, _, _, da, db => by simp
  | x :: xs, y :: ys, i + 1, hx, hy, da, db => by
    simp only [List.zip_cons_cons, List.getD_cons_succ]
    exact zip_getD xs ys i (by simpa using hx) (by simpa using hy) da db

lemma map_zip_getD {α β γ : Type _} (f : α → β → γ) (xs : List α) (ys : List β)
    (i : Nat) (hx : i < xs.length) (hy : i < ys.length) (da : α) (db : β) (dc : γ) :
    ((xs.zip ys).map (fun p => f p.1 p.2)).getD i dc = f (xs.getD i da) (ys.getD i db) := by
  have hz : i < (xs.zip ys).length := by
    simp [List.length_zip]; omega
  rw [map_getD (fun p => f p.1 p.2) (xs.zip ys) i hz (da, db) dc,
      zip_getD xs ys i hx hy da db]

lemma find_name_eq : ∀ (l : List Detector), (l.map Detector.dname).Nodup →
    ∀ d, d ∈ l → l.find? (fun e => e.dname == d.dname) = some d
  | [], _, d, hd => by simp at hd
  | a :: t, hnd, d, hd => by
    simp only [List.map_cons, List.nodup_cons] at hnd
    rcases List.mem_cons.mp hd with h | h
    · subst h
      exact List.find?_cons_of_pos _ (by simp)
    · have hda : a.dname ≠ d.dname := fun he =>
        hnd.1 (he ▸ List.mem_map_of_mem Detector.dname h)
      rw [List.find?_cons_of_neg _ (by simp [hda])]
      exact find_name_eq t hnd.2 d h

lemma findDet_of_chipOfPoint (c : Camera)
    (hnd : (c.detectors.map Detector.dname).Nodup) {x y : ℚ} {d : Detector}
    (h : chipOfPoint c x y = some d) : findDet c d.dname = some d := by
  have hmem : d ∈ c.detectors := List.mem_of_find?_eq_some h
  exact find_name_eq c.detectors hnd d hmem

lemma mem_of_chipOfPoint {c : Camera} {x y : ℚ} {d : Detector}
    (h : chipOfPoint c x y = some d) : d ∈ c.detectors :=
  List.mem_of_find?_eq_some h

lemma chipOfPoint_inBBox {c : Camera} {x y : ℚ} {d : Detector}
    (h : chipOfPoint c x y = some d) :
    inBBox d (tanPixFromPupil c d (x, y)) = true := by
  have h2 : c.detectors.find? (fun e => inBBox e (tanPixFromPupil c e (x, y))) =
      some d := h
  have h3 := List.find?_some h2
  simpa using h3

deriving instance DecidableEq for Except

lemma pupilFromPixel_pixelFromPupil (c : Camera) (d : Detector)
    (hr : c.radPerMm ≠ 0) (hm : c.mmPerPixel ≠ 0)
    (hinv : ∀ p, d.undistort (d.distort p) = p) (incl : Bool) (p : ℚ × ℚ) :
    pupilFromPixel c d incl (pixelFromPupil c d incl p) = p := by
  obtain ⟨x, y⟩ := p
  cases incl <;>
    simp only [pixelFromPupil, pupilFromPixel, tanPixFromPupil, focalFromPupil,
      Bool.false_eq_true, if_false, if_true, hinv] <;>
    refine Prod.ext ?_ ?_ <;> field_simp <;> ring

/-- C9: `applyRefraction(zenithDistance, A, B)` accepts a scalar and a numeric
array and refracts per element through the external refraction kernel, while a
plain Python list is rejected with an input-error; the rejected call performs no
per-element computation — its result does not depend on the refraction kernel at
all (last conjunct). -/
theorem claim_C9_applyRefraction_containers (refr refr2 : ℚ → ℚ → ℚ → ℚ)
    (z tanzCoeff tan3Coeff : ℚ) (zs zl : List ℚ) :
    applyRefraction refr (.zscalar z) tanzCoeff tan3Coeff =
      .ok (.zscalar (refr tanzCoeff tan3Coeff z)) ∧
    applyRefraction refr (.zarr zs) tanzCoeff tan3Coeff =
      .ok (.zarr (zs.map (refr tanzCoeff tan3Coeff))) ∧
    applyRefraction refr (.zlist zl) tanzCoeff tan3Coeff =
      .error "applyRefraction accepts numpy arrays or numbers as zenith distance; you passed a list" ∧
    applyRefraction refr (.zlist zl) tanzCoeff tan3Coeff =
      applyRefraction refr2 (.zlist zl) tanzCoeff tan3Coeff :=
  ⟨rfl, rfl, rfl, rfl⟩

lemma iterateCalls_cached (n : Nat) (c : CameraHandle) (b : Nat) :
    iterateCalls n ⟨some c, b⟩ = (List.replicate n c, ⟨some c, b⟩) := by
  induction n with
  | zero => rfl
  | succ n ih => simp [iterateCalls, lsst_camera, ih, List.replicate_succ]

/-- C10: `lsst_camera` is a memoizing accessor — over any sequence of n calls
starting at process start, the camera is constructed at most once (exactly once as
soon as there is at least one call, and on the first call), and every call returns
the object produced by that single construction, so any two calls in any order
return coinciding values. -/
theorem claim_C10_lsst_camera_memoized (n : Nat) :
    (∀ h ∈ (iterateCalls n initLsstState).1, h = buildCamera 0) ∧
    (iterateCalls n initLsstState).2.builds ≤ 1 ∧
    (0 < n → iterateCalls n initLsstState =
      (List.replicate n (buildCamera 0), ⟨some (buildCamera 0), 1⟩)) := by
  cases n with
  | zero => simp [iterateCalls, initLsstState]
  | succ n =>
    have h1 : iterateCalls (n + 1) initLsstState =
        (buildCamera 0 :: List.replicate n (buildCamera 0),
          ⟨some (buildCamera 0), 1⟩) := by
      simp [iterateCalls, initLsstState, lsst_camera, iterateCalls_cached]
    rw [h1]
    refine ⟨?_, by simp, fun _ => by simp [List.replicate_succ]⟩
    intro h hmem
    rcases List.mem_cons.mp hmem with h0 | h0
    · exact h0
    · exact List.eq_of_mem_replicate h0

/-- Witness for C10 at a concrete call count. -/
theorem claim_C10_witness :
    iterateCalls 3 initLsstState =
      (List.replicate 3 (buildCamera 0), ⟨some (buildCamera 0), 1⟩) :=
  (claim_C10_lsst_camera_memoized 3).2.2 (by decide)

lemma chipName_scalar_eval (c : Camera) (x y : ℚ) :
    chipNameFromPupilCoords (some c) (.scalar (some x)) (.scalar (some y)) =
      .ok (.scalar (chipNameOfPoint c x y)) := by
  simp [chipNameFromPupilCoords, chipNameVal]

lemma testCamera_detectors : testCamera.detectors = [det22, det32, det40] := rfl

lemma find?_cons_pos {α : Type _} (p : α → Bool) (a : α) (l : List α)
    (h : p a = true) : List.find? p (a :: l) = some a := by
  rw [List.find?]
  rw [h]

lemma find?_cons_neg {α : Type _} (p : α → Bool) (a : α) (l : List α)
    (h : p a = false) : List.find? p (a :: l) = List.find? p l := by
  rw [List.find?]
  rw [h]

lemma findDet_testCamera_Det22 : findDet testCamera "Det22" = some det22 := by
  unfold findDet
  rw [testCamera_detectors, find?_cons_pos _ _ _ (by rfl)]

lemma tanPix_testCamera_det22 (dx dy : ℚ) :
    tanPixFromPupil testCamera det22
      (radiansFromArcsec (dx * (1/50)), radiansFromArcsec (dy * (1/50))) =
      (3999/2 + dy, 3999/2 - dx) := by
  simp only [tanPixFromPupil, focalFromPupil, testCamera, det22, Detector.pixCenX,
    Detector.pixCenY, radiansFromArcsec]
  have hk : arcsecRad ≠ 0 := ne_of_gt arcsecRad_pos
  simp only [Prod.mk.injEq]
  constructor <;> (field_simp; ring)

lemma chip22_eval (dx dy : ℚ) (hdx : |dx| ≤ 1999) (hdy : |dy| ≤ 1999) :
    chipNameOfPoint testCamera
      (radiansFromArcsec (dx * (1/50))) (radiansFromArcsec (dy * (1/50))) =
      some "Det22" := by
  obtain ⟨hdx1, hdx2⟩ := abs_le.mp hdx
  obtain ⟨hdy1, hdy2⟩ := abs_le.mp hdy
  have hb : inBBox det22 (tanPixFromPupil testCamera det22
      (radiansFromArcsec (dx * (1/50)), radiansFromArcsec (dy * (1/50)))) = true := by
    rw [tanPix_testCamera_det22]
    simp only [inBBox, det22, Bool.and_eq_true, decide_eq_true_eq]
    refine ⟨⟨⟨by linarith, by linarith⟩, by linarith⟩, by linarith⟩
  unfold chipNameOfPoint chipOfPoint
  rw [testCamera_detectors,
    find?_cons_pos
      (fun d => inBBox d (tanPixFromPupil testCamera d
        (radiansFromArcsec (dx * (1/50)), radiansFromArcsec (dy * (1/50)))))
      det22 [det32, det40] hb]
  rfl

example : chipNameFromPupilCoords (some testCamera) (.scalar (some 0)) (.scalar (some 0)) =
    .ok (.scalar (some "Det22")) := by
  rw [chipName_scalar_eval]
  have h := chip22_eval 0 0 (by norm_num) (by norm_num)
  norm_num [radiansFromArcsec] at h
  rw [h]

lemma chipNameOfPoint_elim {c : Camera} {x y : ℚ} {nm : String}
    (hcn : chipNameOfPoint c x y = some nm) :
    ∃ d, chipOfPoint c x y = some d ∧ d.dname = nm := by
  unfold chipNameOfPoint at hcn
  cases hfind : chipOfPoint c x y with
  | none => rw [hfind] at hcn; simp at hcn
  | some d =>
    rw [hfind] at hcn
    simp only [Option.map_some', Option.some.injEq] at hcn
    exact ⟨d, rfl, hcn⟩

lemma pixel_scalar_auto_eval (c : Camera) (incl : Bool) (x y : ℚ) {nm : String}
    {d : Detector} (hcn : chipNameOfPoint c x y = some nm)
    (hfd : findDet c nm = some d) :
    pixelCoordsFromPupilCoords (some c) .auto incl (.scalar (some x)) (.scalar (some y)) =
      .ok (.scalar (some (pixelFromPupil c d incl (x, y)).1)
        (some (pixelFromPupil c d incl (x, y)).2)) := by
  simp [pixelCoordsFromPupilCoords, resolveChips, chipNameVal, hcn, pixelVal, hfd]

lemma pupil_scalar_eval (c : Camera) (incl : Bool) (px py : ℚ) {nm : String}
    {d : Detector} (hfd : findDet c nm = some d) :
    pupilCoordsFromPixelCoords (some c) (.one nm) incl
      (.scalar (some px)) (.scalar (some py)) =
      .ok (.scalar (some (pupilFromPixel c d incl (px, py)).1)
        (some (pupilFromPixel c d incl (px, py)).2)) := by
  simp [pupilCoordsFromPixelCoords, resolvePixChips, pupilFromPixVal, hfd]

/-- C1: for every pupil coordinate pair that chip lookup resolves to a real
detector, and for each value of the includeDistortion flag, pixelCoordsFromPupilCoords
followed by pupilCoordsFromPixelCoords with that same detector name and the same
flag reproduces the original pair to within 1e-9 radians (in this rational model
the round trip is exact, so the bound holds). -/
theorem claim_C1_pixel_pupil_roundtrip (c : Camera) (hc : CameraOk c) (incl : Bool)
    (x y : ℚ) (nm : String)
    (hname : chipNameFromPupilCoords (some c) (.scalar (some x)) (.scalar (some y)) =
      .ok (.scalar (some nm))) :
    ∃ px py : ℚ,
      pixelCoordsFromPupilCoords (some c) .auto incl
        (.scalar (some x)) (.scalar (some y)) =
        .ok (.scalar (some px) (some py)) ∧
      ∃ x2 y2 : ℚ,
        pupilCoordsFromPixelCoords (some c) (.one nm) incl
          (.scalar (some px)) (.scalar (some py)) =
          .ok (.scalar (some x2) (some y2)) ∧
        |x2 - x| ≤ 1 / 1000000000 ∧ |y2 - y| ≤ 1 / 1000000000 := by
  obtain ⟨hrp, hmp, hnd, hinv⟩ := hc
  rw [chipName_scalar_eval] at hname
  have hcn : chipNameOfPoint c x y = some nm := by
    simpa using hname
  obtain ⟨d, hd, hdn⟩ := chipNameOfPoint_elim hcn
  have hfd : findDet c nm = some d := hdn ▸ findDet_of_chipOfPoint c hnd hd
  refine ⟨(pixelFromPupil c d incl (x, y)).1, (pixelFromPupil c d incl (x, y)).2,
    pixel_scalar_auto_eval c incl x y hcn hfd, ?_⟩
  have hrt : pupilFromPixel c d incl (pixelFromPupil c d incl (x, y)) = (x, y) :=
    pupilFromPixel_pixelFromPupil c d (ne_of_gt hrp) (ne_of_gt hmp)
      (hinv d (mem_of_chipOfPoint hd)) incl (x, y)
  have hpair : ((pixelFromPupil c d incl (x, y)).1, (pixelFromPupil c d incl (x, y)).2) =
      pixelFromPupil c d incl (x, y) := rfl
  refine ⟨(pupilFromPixel c d incl (pixelFromPupil c d incl (x, y))).1,
    (pupilFromPixel c d incl (pixelFromPupil c d incl (x, y))).2, ?_, ?_, ?_⟩
  · rw [pupil_scalar_eval c incl _ _ hfd, hpair]
  · rw [hrt]
    simp
  · rw [hrt]
    simp

/-- Witness for C1: the origin of the test camera resolves to detector Det22 and
round-trips through pixel coordinates with distortion included. -/
theorem claim_C1_witness :
    chipNameFromPupilCoords (some testCamera) (.scalar (some 0)) (.scalar (some 0)) =
      .ok (.scalar (some "Det22")) ∧
    (∃ px py : ℚ,
      pixelCoordsFromPupilCoords (some testCamera) .auto true
        (.scalar (some 0)) (.scalar (some 0)) =
        .ok (.scalar (some px) (some py)) ∧
      ∃ x2 y2 : ℚ,
        pupilCoordsFromPixelCoords (some testCamera) (.one "Det22") true
          (.scalar (some px)) (.scalar (some py)) =
          .ok (.scalar (some x2) (some y2)) ∧
        |x2 - 0| ≤ 1 / 1000000000 ∧ |y2 - 0| ≤ 1 / 1000000000) := by
  have hname : chipNameFromPupilCoords (some testCamera)
      (.scalar (some 0)) (.scalar (some 0)) = .ok (.scalar (some "Det22")) := by
    rw [chipName_scalar_eval]
    have h := chip22_eval 0 0 (by norm_num) (by norm_num)
    norm_num [radiansFromArcsec] at h
    rw [h]
  exact ⟨hname,
    claim_C1_pixel_pupil_roundtrip testCamera testCamera_ok true 0 0 "Det22" hname⟩

/-- C7: on the test camera (detector centers (0,0), (40,0), (80,-80) mm, plate
scale 0.02 arcsec per pixel), every pupil coordinate displaced from the center of
detector Det22 by up to 1999 pixels in each axis resolves to chip Det22, and the
distortion-free pixel coordinates agree with the analytic prediction under the
pixel-axis/pupil-axis swap (xPix = 1999.5 + dy, yPix = 1999.5 - dx) to within
0.01 pixel (exactly, in this rational model). -/
theorem claim_C7_concrete_scenario (dx dy : ℚ) (hdx : |dx| ≤ 1999) (hdy : |dy| ≤ 1999) :
    chipNameFromPupilCoords (some testCamera)
      (.scalar (some (radiansFromArcsec (dx * (1/50)))))
      (.scalar (some (radiansFromArcsec (dy * (1/50))))) =
      .ok (.scalar (some "Det22")) ∧
    ∃ px py : ℚ,
      pixelCoordsFromPupilCoords (some testCamera) .auto false
        (.scalar (some (radiansFromArcsec (dx * (1/50)))))
        (.scalar (some (radiansFromArcsec (dy * (1/50))))) =
        .ok (.scalar (some px) (some py)) ∧
      |px - (3999/2 + dy)| ≤ 1/100 ∧ |py - (3999/2 - dx)| ≤ 1/100 := by
  have hcn := chip22_eval dx dy hdx hdy
  constructor
  · rw [chipName_scalar_eval, hcn]
  · refine ⟨3999/2 + dy, 3999/2 - dx, ?_, by norm_num, by norm_num⟩
    rw [pixel_scalar_auto_eval testCamera false _ _ hcn findDet_testCamera_Det22]
    have hpx : pixelFromPupil testCamera det22 false
        (radiansFromArcsec (dx * (1/50)), radiansFromArcsec (dy * (1/50))) =
        (3999/2 + dy, 3999/2 - dx) := by
      simp only [pixelFromPupil, Bool.false_eq_true, if_false]
      exact tanPix_testCamera_det22 dx dy
    rw [hpx]

/-- Witness for C7 at the +500 pixel x offset named by the claim. -/
theorem claim_C7_witness :
    chipNameFromPupilCoords (some testCamera)
      (.scalar (some (radiansFromArcsec (500 * (1/50)))))
      (.scalar (some (radiansFromArcsec (0 * (1/50))))) =
      .ok (.scalar (some "Det22")) ∧
    ∃ px py : ℚ,
      pixelCoordsFromPupilCoords (some testCamera) .auto false
        (.scalar (some (radiansFromArcsec (500 * (1/50)))))
        (.scalar (some (radiansFromArcsec (0 * (1/50))))) =
        .ok (.scalar (some px) (some py)) ∧
      |px - (3999/2 + 0)| ≤ 1/100 ∧ |py - (3999/2 - 500)| ≤ 1/100 :=
  claim_C7_concrete_scenario 500 0 (by norm_num) (by norm_num)

/-- The per-element composite of sky-to-pupil projection and chip lookup, the body
of the chipNameFromRaDec routines. -/
def chipNamePointRaDec (sky : ℚ → ℚ → ℚ × ℚ) (c : Camera) (rv dv : Val) :
    Option String :=
  chipNameVal c (skyVal sky rv dv).1 (skyVal sky rv dv).2

/-- The per-element composite of sky-to-pupil projection, chip lookup and the
forward pixel transform, the body of the pixelCoordsFromRaDec routines. -/
def pixelPointRaDec (sky : ℚ → ℚ → ℚ × ℚ) (c : Camera) (incl : Bool) (rv dv : Val) :
    Val × Val :=
  pixelPointAuto c incl (skyVal sky rv dv).1 (skyVal sky rv dv).2

/-- The per-element composite of sky-to-pupil projection and the plate-scale map,
the body of the focalPlaneCoordsFromRaDec routines. -/
def focalPointRaDec (sky : ℚ → ℚ → ℚ × ℚ) (c : Camera) (rv dv : Val) : Val × Val :=
  focalVal c (skyVal sky rv dv).1 (skyVal sky rv dv).2

/-- The per-element composite of the inverse pixel transform and the inverse sky
map, the body of the raDecFromPixelCoords routines. -/
def raDecPointFromPix (skyInv : ℚ → ℚ → ℚ × ℚ) (c : Camera) (incl : Bool)
    (xv yv : Val) (chip : Option String) : Val × Val :=
  skyVal skyInv (pupilFromPixVal c incl xv yv chip).1
    (pupilFromPixVal c incl xv yv chip).2

lemma chipName_arr_eval (c : Camera) (xs ys : List Val)
    (hlen : xs.length = ys.length) :
    chipNameFromPupilCoords (some c) (.npArr xs) (.npArr ys) =
      .ok (.arr ((xs.zip ys).map (fun p => chipNameVal c p.1 p.2))) := by
  simp [chipNameFromPupilCoords, hlen]

lemma chipName_scalar_eval_val (c : Camera) (v w : Val) :
    chipNameFromPupilCoords (some c) (.scalar v) (.scalar w) =
      .ok (.scalar (chipNameVal c v w)) := by
  simp [chipNameFromPupilCoords]

lemma chipNameRaDec_arr_eval (sky : ℚ → ℚ → ℚ × ℚ) (c : Camera)
    (pra pdc : Option ℚ) (m r : ℚ) (ep : Option ℚ) (xs ys : List Val)
    (hlen : xs.length = ys.length) :
    _chipNameFromRaDec sky (some c) (some (mkObs pra pdc m r)) ep
      (.npArr xs) (.npArr ys) =
      .ok (.arr ((xs.zip ys).map (fun p => chipNamePointRaDec sky c p.1 p.2))) := by
  simp [_chipNameFromRaDec, mkObs, hlen, chipNamePointRaDec]

lemma chipNameRaDec_scalar_eval (sky : ℚ → ℚ → ℚ × ℚ) (c : Camera)
    (pra pdc : Option ℚ) (m r : ℚ) (ep : Option ℚ) (v w : Val) :
    _chipNameFromRaDec sky (some c) (some (mkObs pra pdc m r)) ep
      (.scalar v) (.scalar w) =
      .ok (.scalar (chipNamePointRaDec sky c v w)) := by
  simp [_chipNameFromRaDec, mkObs, chipNamePointRaDec]

lemma pixel_arr_auto_eval (c : Camera) (incl : Bool) (xs ys : List Val)
    (hlen : xs.length = ys.length) :
    pixelCoordsFromPupilCoords (some c) .auto incl (.npArr xs) (.npArr ys) =
      .ok (.arr ((xs.zip ys).map (fun p => pixelPointAuto c incl p.1 p.2))) := by
  simp [pixelCoordsFromPupilCoords, resolveChips, hlen, zipWith_map_right,
    pixelPointAuto]

lemma pixel_scalar_auto_eval_val (c : Camera) (incl : Bool) (v w : Val) :
    pixelCoordsFromPupilCoords (some c) .auto incl (.scalar v) (.scalar w) =
      .ok (.scalar (pixelPointAuto c incl v w).1 (pixelPointAuto c incl v w).2) := by
  simp [pixelCoordsFromPupilCoords, resolveChips, pixelPointAuto]

lemma pixel_arr_one_eval (c : Camera) (incl : Bool) (s : String) (xs ys : List Val)
    (hlen : xs.length = ys.length) :
    pixelCoordsFromPupilCoords (some c) (.one s) incl (.npArr xs) (.npArr ys) =
      .ok (.arr ((xs.zip ys).map (fun p => pixelVal c incl p.1 p.2 (some s)))) := by
  simp [pixelCoordsFromPupilCoords, resolveChips, hlen]
  rw [zipWith_replicate_ge (fun p nm => pixelVal c incl p.1 p.2 nm) (some s)
    (xs.zip ys) ys.length (by simp [hlen])]

lemma pixel_scalar_one_eval (c : Camera) (incl : Bool) (s : String) (v w : Val) :
    pixelCoordsFromPupilCoords (some c) (.one s) incl (.scalar v) (.scalar w) =
      .ok (.scalar (pixelVal c incl v w (some s)).1 (pixelVal c incl v w (some s)).2) := by
  simp [pixelCoordsFromPupilCoords, resolveChips, List.replicate]

lemma pixelRaDec_arr_auto_eval (sky : ℚ → ℚ → ℚ × ℚ) (c : Camera)
    (pra pdc : Option ℚ) (m r : ℚ) (ep : Option ℚ) (incl : Bool)
    (xs ys : List Val) (hlen : xs.length = ys.length) :
    _pixelCoordsFromRaDec sky (some c) (some (mkObs pra pdc m r)) ep .auto incl
      (.npArr xs) (.npArr ys) =
      .ok (.arr ((xs.zip ys).map (fun p => pixelPointRaDec sky c incl p.1 p.2))) := by
  simp [_pixelCoordsFromRaDec, mkObs, resolveChips, hlen, zipWith_map_right,
    List.map_map, pixelPointRaDec, pixelPointAuto, Function.comp]

lemma pixelRaDec_scalar_auto_eval (sky : ℚ → ℚ → ℚ × ℚ) (c : Camera)
    (pra pdc : Option ℚ) (m r : ℚ) (ep : Option ℚ) (incl : Bool) (v w : Val) :
    _pixelCoordsFromRaDec sky (some c) (some (mkObs pra pdc m r)) ep .auto incl
      (.scalar v) (.scalar w) =
      .ok (.scalar (pixelPointRaDec sky c incl v w).1
        (pixelPointRaDec sky c incl v w).2) := by
  simp [_pixelCoordsFromRaDec, mkObs, resolveChips, pixelPointRaDec, pixelPointAuto]

lemma focal_arr_eval (c : Camera) (xs ys : List Val)
    (hlen : xs.length = ys.length) :
    focalPlaneCoordsFromPupilCoords (some c) (.npArr xs) (.npArr ys) =
      .ok (.arr ((xs.zip ys).map (fun p => focalVal c p.1 p.2))) := by
  simp [focalPlaneCoordsFromPupilCoords, hlen]

lemma focal_scalar_eval (c : Camera) (v w : Val) :
    focalPlaneCoordsFromPupilCoords (some c) (.scalar v) (.scalar w) =
      .ok (.scalar (focalVal c v w).1 (focalVal c v w).2) := by
  simp [focalPlaneCoordsFromPupilCoords]

lemma focalRaDec_arr_eval (sky : ℚ → ℚ → ℚ × ℚ) (c : Camera)
    (pra pdc : Option ℚ) (m r : ℚ) (ep : Option ℚ) (xs ys : List Val)
    (hlen : xs.length = ys.length) :
    _focalPlaneCoordsFromRaDec sky (some c) (some (mkObs pra pdc m r)) ep
      (.npArr xs) (.npArr ys) =
      .ok (.arr ((xs.zip ys).map (fun p => focalPointRaDec sky c p.1 p.2))) := by
  simp [_focalPlaneCoordsFromRaDec, mkObs, hlen, focalPointRaDec]

lemma focalRaDec_scalar_eval (sky : ℚ → ℚ → ℚ × ℚ) (c : Camera)
    (pra pdc : Option ℚ) (m r : ℚ) (ep : Option ℚ) (v w : Val) :
    _focalPlaneCoordsFromRaDec sky (some c) (some (mkObs pra pdc m r)) ep
      (.scalar v) (.scalar w) =
      .ok (.scalar (focalPointRaDec sky c v w).1 (focalPointRaDec sky c v w).2) := by
  simp [_focalPlaneCoordsFromRaDec, mkObs, focalPointRaDec]

lemma pupilPix_arr_one_eval (c : Camera) (incl : Bool) (s : String)
    (xs ys : List Val) (hlen : xs.length = ys.length) :
    pupilCoordsFromPixelCoords (some c) (.one s) incl (.npArr xs) (.npArr ys) =
      .ok (.arr ((xs.zip ys).map (fun p => pupilFromPixVal c incl p.1 p.2 (some s)))) := by
  simp [pupilCoordsFromPixelCoords, resolvePixChips, hlen]
  rw [zipWith_replicate_ge (fun p nm => pupilFromPixVal c incl p.1 p.2 nm) (some s)
    (xs.zip ys) ys.length (by simp [hlen])]

lemma pupilPix_scalar_one_eval (c : Camera) (incl : Bool) (s : String) (v w : Val) :
    pupilCoordsFromPixelCoords (some c) (.one s) incl (.scalar v) (.scalar w) =
      .ok (.scalar (pupilFromPixVal c incl v w (some s)).1
        (pupilFromPixVal c incl v w (some s)).2) := by
  simp [pupilCoordsFromPixelCoords, resolvePixChips, List.replicate]

lemma raDecPix_arr_one_eval (skyInv : ℚ → ℚ → ℚ × ℚ) (c : Camera)
    (pra pdc : Option ℚ) (m r : ℚ) (ep : Option ℚ) (incl : Bool) (s : String)
    (xs ys : List Val) (hlen : xs.length = ys.length) :
    _raDecFromPixelCoords skyInv (some c) (some (mkObs pra pdc m r)) ep
      (.one s) incl (.npArr xs) (.npArr ys) =
      .ok (.arr ((xs.zip ys).map
        (fun p => raDecPointFromPix skyInv c incl p.1 p.2 (some s)))) := by
  simp [_raDecFromPixelCoords, mkObs, resolvePixChips, hlen, raDecPointFromPix]
  rw [zipWith_replicate_ge
    (fun p nm => skyVal skyInv (pupilFromPixVal c incl p.1 p.2 nm).1
      (pupilFromPixVal c incl p.1 p.2 nm).2) (some s)
    (xs.zip ys) ys.length (by simp [hlen])]

lemma raDecPix_scalar_one_eval (skyInv : ℚ → ℚ → ℚ × ℚ) (c : Camera)
    (pra pdc : Option ℚ) (m r : ℚ) (ep : Option ℚ) (incl : Bool) (s : String)
    (v w : Val) :
    _raDecFromPixelCoords skyInv (some c) (some (mkObs pra pdc m r)) ep
      (.one s) incl (.scalar v) (.scalar w) =
      .ok (.scalar (raDecPointFromPix skyInv c incl v w (some s)).1
        (raDecPointFromPix skyInv c incl v w (some s)).2) := by
  simp [_raDecFromPixelCoords, mkObs, resolvePixChips, List.replicate,
    raDecPointFromPix]

lemma zip_map_both {β : Type _} (f : Val → Val) (g : (Val × Val) → β) :
    ∀ (xs ys : List Val),
      ((xs.map f).zip (ys.map f)).map g =
        (xs.zip ys).map (fun p => g (f p.1, f p.2))
  | [], _ => by simp
  | _ :: _, [] => by simp
  | a :: t, b :: u => by simp [zip_map_both f g t u]

lemma chipNameRaDecDeg_arr_eval (sky : ℚ → ℚ → ℚ × ℚ) (c : Camera)
    (pra pdc : Option ℚ) (m r : ℚ) (ep : Option ℚ) (xs ys : List Val)
    (hlen : xs.length = ys.length) :
    chipNameFromRaDec sky (some c) (some (mkObs pra pdc m r)) ep
      (.npArr xs) (.npArr ys) =
      .ok (.arr ((xs.zip ys).map
        (fun p => chipNamePointRaDec sky c (degVal p.1) (degVal p.2)))) := by
  show _chipNameFromRaDec sky (some c) (some (mkObs pra pdc m r)) ep
      (.npArr (xs.map degVal)) (.npArr (ys.map degVal)) = _
  rw [chipNameRaDec_arr_eval sky c pra pdc m r ep _ _ (by simp [hlen])]
  rw [zip_map_both degVal (fun p => chipNamePointRaDec sky c p.1 p.2) xs ys]

lemma pixelRaDecDeg_arr_eval (sky : ℚ → ℚ → ℚ × ℚ) (c : Camera)
    (pra pdc : Option ℚ) (m r : ℚ) (ep : Option ℚ) (incl : Bool)
    (xs ys : List Val) (hlen : xs.length = ys.length) :
    pixelCoordsFromRaDec sky (some c) (some (mkObs pra pdc m r)) ep .auto incl
      (.npArr xs) (.npArr ys) =
      .ok (.arr ((xs.zip ys).map
        (fun p => pixelPointRaDec sky c incl (degVal p.1) (degVal p.2)))) := by
  show _pixelCoordsFromRaDec sky (some c) (some (mkObs pra pdc m r)) ep .auto incl
      (.npArr (xs.map degVal)) (.npArr (ys.map degVal)) = _
  rw [pixelRaDec_arr_auto_eval sky c pra pdc m r ep incl _ _ (by simp [hlen])]
  rw [zip_map_both degVal (fun p => pixelPointRaDec sky c incl p.1 p.2) xs ys]

/-- C2: in every array call to the chip-lookup and coordinate-conversion routines,
a NaN or missing RA, Dec, or pupil x/y never raises: the whole call succeeds and is
computed per element (first six conjuncts), a NaN element's chip name is absent and
all of its downstream pupil, focal-plane, and pixel coordinates are NaN (remaining
conjuncts), and — because each output element is a function of that element's input
alone — every other element receives exactly the value it would receive in a call
without the bad elements. -/
theorem claim_C2_nan_propagation (sky : ℚ → ℚ → ℚ × ℚ) (c : Camera)
    (pra pdc : Option ℚ) (m r : ℚ) (ep : Option ℚ) (incl : Bool)
    (xs ys : List Val) (hlen : xs.length = ys.length) :
    chipNameFromPupilCoords (some c) (.npArr xs) (.npArr ys) =
      .ok (.arr ((xs.zip ys).map (fun p => chipNameVal c p.1 p.2))) ∧
    _chipNameFromRaDec sky (some c) (some (mkObs pra pdc m r)) ep
      (.npArr xs) (.npArr ys) =
      .ok (.arr ((xs.zip ys).map (fun p => chipNamePointRaDec sky c p.1 p.2))) ∧
    chipNameFromRaDec sky (some c) (some (mkObs pra pdc m r)) ep
      (.npArr xs) (.npArr ys) =
      .ok (.arr ((xs.zip ys).map
        (fun p => chipNamePointRaDec sky c (degVal p.1) (degVal p.2)))) ∧
    pixelCoordsFromPupilCoords (some c) .auto incl (.npArr xs) (.npArr ys) =
      .ok (.arr ((xs.zip ys).map (fun p => pixelPointAuto c incl p.1 p.2))) ∧
    _pixelCoordsFromRaDec sky (some c) (some (mkObs pra pdc m r)) ep .auto incl
      (.npArr xs) (.npArr ys) =
      .ok (.arr ((xs.zip ys).map (fun p => pixelPointRaDec sky c incl p.1 p.2))) ∧
    pixelCoordsFromRaDec sky (some c) (some (mkObs pra pdc m r)) ep .auto incl
      (.npArr xs) (.npArr ys) =
      .ok (.arr ((xs.zip ys).map
        (fun p => pixelPointRaDec sky c incl (degVal p.1) (degVal p.2)))) ∧
    (∀ v, chipNameVal c none v = none ∧ chipNameVal c v none = none) ∧
    (∀ v, chipNamePointRaDec sky c none v = none ∧
      chipNamePointRaDec sky c v none = none) ∧
    (∀ v, skyVal sky none v = (none, none) ∧ skyVal sky v none = (none, none)) ∧
    (∀ v, focalVal c none v = (none, none) ∧ focalVal c v none = (none, none)) ∧
    (∀ v, pixelPointAuto c incl none v = (none, none) ∧
      pixelPointAuto c incl v none = (none, none)) ∧
    (∀ v, pixelPointRaDec sky c incl none v = (none, none) ∧
      pixelPointRaDec sky c incl v none = (none, none)) ∧
    degVal none = none := by
  refine ⟨chipName_arr_eval c xs ys hlen,
    chipNameRaDec_arr_eval sky c pra pdc m r ep xs ys hlen,
    chipNameRaDecDeg_arr_eval sky c pra pdc m r ep xs ys hlen,
    pixel_arr_auto_eval c incl xs ys hlen,
    pixelRaDec_arr_auto_eval sky c pra pdc m r ep incl xs ys hlen,
    pixelRaDecDeg_arr_eval sky c pra pdc m r ep incl xs ys hlen,
    fun v => ⟨by cases v <;> rfl, by cases v <;> rfl⟩,
    fun v => ⟨by cases v <;> rfl, by cases v <;> rfl⟩,
    fun v => ⟨by cases v <;> rfl, by cases v <;> rfl⟩,
    fun v => ⟨by cases v <;> rfl, by cases v <;> rfl⟩,
    fun v => ⟨by cases v <;> rfl, by cases v <;> rfl⟩,
    fun v => ⟨by cases v <;> rfl, by cases v <;> rfl⟩,
    rfl⟩

/-- Witness for C2: a two-element call with a NaN first element succeeds, the NaN
element's chip name is absent, and the good element is looked up normally. -/
theorem claim_C2_witness :
    chipNameFromPupilCoords (some testCamera)
      (.npArr [none, some 0]) (.npArr [some 0, some 0]) =
      .ok (.arr [none, chipNameOfPoint testCamera 0 0]) := by
  have h := claim_C2_nan_propagation (fun a b => (a, b)) testCamera none none 0 0
    none true [none, some 0] [some 0, some 0] rfl
  rw [h.1]
  rfl

/-- C4: in a pixelCoordsFromPupilCoords or pixelCoordsFromRaDec call with the
per-point detector resolved by chip lookup, a point whose resolved detector is
absent gets NaN for both pixel coordinates, while a point with a resolved detector
gets finite (non-NaN) pixel coordinates which, in the distortion-free case, lie
inside that detector's declared pixel bounding box (exactly, in this model). -/
theorem claim_C4_offchip_invariant (c : Camera)
    (hnd : (c.detectors.map Detector.dname).Nodup) (sky : ℚ → ℚ → ℚ × ℚ)
    (pra pdc : Option ℚ) (m r : ℚ) (ep : Option ℚ) (incl : Bool)
    (xs ys : List Val) (hlen : xs.length = ys.length) :
    pixelCoordsFromPupilCoords (some c) .auto incl (.npArr xs) (.npArr ys) =
      .ok (.arr ((xs.zip ys).map (fun p => pixelPointAuto c incl p.1 p.2))) ∧
    _pixelCoordsFromRaDec sky (some c) (some (mkObs pra pdc m r)) ep .auto incl
      (.npArr xs) (.npArr ys) =
      .ok (.arr ((xs.zip ys).map (fun p => pixelPointRaDec sky c incl p.1 p.2))) ∧
    (∀ xv yv, chipNameVal c xv yv = none →
      pixelPointAuto c incl xv yv = (none, none)) ∧
    (∀ x y nm, chipNameVal c (some x) (some y) = some nm →
      ∃ d px py, findDet c nm = some d ∧
        pixelPointAuto c incl (some x) (some y) = (some px, some py) ∧
        (incl = false → inBBox d (px, py) = true)) := by
  refine ⟨pixel_arr_auto_eval c incl xs ys hlen,
    pixelRaDec_arr_auto_eval sky c pra pdc m r ep incl xs ys hlen, ?_, ?_⟩
  · intro xv yv h
    unfold pixelPointAuto
    rw [h]
    cases xv <;> cases yv <;> rfl
  · intro x y nm h
    have hcn : chipNameOfPoint c x y = some nm := h
    obtain ⟨d, hd, hdn⟩ := chipNameOfPoint_elim hcn
    have hfd : findDet c nm = some d := hdn ▸ findDet_of_chipOfPoint c hnd hd
    refine ⟨d, (pixelFromPupil c d incl (x, y)).1, (pixelFromPupil c d incl (x, y)).2,
      hfd, ?_, ?_⟩
    · unfold pixelPointAuto
      rw [show chipNameVal c (some x) (some y) = some nm from h]
      simp [pixelVal, hfd]
    · intro hf
      subst hf
      have hb := chipOfPoint_inBBox hd
      have ht : pixelFromPupil c d false (x, y) = tanPixFromPupil c d (x, y) := rfl
      rw [ht]
      exact hb

/-- Witness for C4 at a concrete on-chip call on the test camera. -/
theorem claim_C4_witness :
    pixelCoordsFromPupilCoords (some testCamera) .auto false
      (.npArr [some 0]) (.npArr [some 0]) =
      .ok (.arr (([some (0:ℚ)].zip [some (0:ℚ)]).map
        (fun p => pixelPointAuto testCamera false p.1 p.2))) :=
  (claim_C4_offchip_invariant testCamera (by decide) (fun a b => (a, b))
    none none 0 0 none false [some 0] [some 0] rfl).1

lemma pixel_arr_chips_eval (c : Camera) (incl : Bool) (xs ys : List Val)
    (hlen : xs.length = ys.length) (ch : ChipArg) (names : List (Option String))
    (hres : resolveChips c "pixelCoordsFromPupilCoords" (xs.zip ys) ch = .ok names) :
    pixelCoordsFromPupilCoords (some c) ch incl (.npArr xs) (.npArr ys) =
      .ok (.arr (List.zipWith (fun p nm => pixelVal c incl p.1 p.2 nm)
        (xs.zip ys) names)) := by
  simp [pixelCoordsFromPupilCoords, hlen, hres]

lemma resolveChips_singleton (c : Camera) (fname : String)
    (pts : List (Val × Val)) (s : String) :
    resolveChips c fname pts (.many [some s]) =
      resolveChips c fname pts (.one s) := by
  by_cases h : pts.length = 1
  · simp [resolveChips, h]
  · have h1 : ¬ ((1 : Nat) = pts.length) := fun he => h he.symm
    simp [resolveChips, h1]

lemma degRad_ne : degRad ≠ 0 := ne_of_gt degRad_pos

/-- C3 counterexample: chipNameFromPupilCoords, called with mismatched-length
arrays, raises the fixed message pinned verbatim by the repository tests — the
same message for a 5-vs-10 mismatch as for a 7-vs-3 mismatch, and one containing
no digit at all — so the claim that every Projection Engine entry point reports
both observed lengths on a length mismatch is false. -/
theorem claim_C3_counterexample :
    chipNameFromPupilCoords (some testCamera)
      (.npArr (List.replicate 5 (some (1:ℚ))))
      (.npArr (List.replicate 10 (some (1:ℚ)))) = .error chipPupLenMsg ∧
    chipNameFromPupilCoords (some testCamera)
      (.npArr (List.replicate 7 (some (1:ℚ))))
      (.npArr (List.replicate 3 (some (1:ℚ)))) = .error chipPupLenMsg ∧
    chipPupLenMsg.data.all (fun ch => !ch.isDigit) = true := by
  refine ⟨by simp [chipNameFromPupilCoords], by simp [chipNameFromPupilCoords], ?_⟩
  decide

/-- C3 (amended): every modelled Projection Engine entry point rejects the whole
call synchronously — returning an error and no partial results — when given
mismatched-length coordinate arrays, a plain Python list where a numeric array is
required, a missing camera model, or a missing/incomplete observation context
(no context, no mjd, or no rotSkyPos), each with a message identifying the violated
precondition; the length-mismatch messages of pixelCoordsFromRaDec,
focalPlaneCoords*, pupilCoordsFromPixelCoords and raDecFromPixelCoords report both
observed lengths, while chipName* and pixelCoordsFromPupilCoords use a fixed
same-length message that reports neither. -/
theorem claim_C3_validation_errors (sky skyInv : ℚ → ℚ → ℚ × ℚ) (c : Camera)
    (pra pdc : Option ℚ) (m r : ℚ) (ep : Option ℚ) (chips : ChipArg) (incl : Bool)
    (xs ys xl yl : List Val) (xp yp : PyArg) (hne : xs.length ≠ ys.length) :
    chipNameFromPupilCoords (some c) (.npArr xs) (.npArr ys) =
      .error chipPupLenMsg ∧
    _chipNameFromRaDec sky (some c) (some (mkObs pra pdc m r)) ep
      (.npArr xs) (.npArr ys) = .error chipRaDecLenMsg ∧
    pixelCoordsFromPupilCoords (some c) chips incl (.npArr xs) (.npArr ys) =
      .error pixPupLenMsg ∧
    _pixelCoordsFromRaDec sky (some c) (some (mkObs pra pdc m r)) ep chips incl
      (.npArr xs) (.npArr ys) = .error (pixRaDecLenMsg xs.length ys.length) ∧
    focalPlaneCoordsFromPupilCoords (some c) (.npArr xs) (.npArr ys) =
      .error ("You specified " ++ toString xs.length ++ " xPupil and " ++
        toString ys.length ++ " yPupil coordinates in focalPlaneCoordsFromPupilCoords") ∧
    _focalPlaneCoordsFromRaDec sky (some c) (some (mkObs pra pdc m r)) ep
      (.npArr xs) (.npArr ys) =
      .error ("You specified " ++ toString xs.length ++ " RAs and " ++
        toString ys.length ++ " Decs in focalPlaneCoordsFromRaDec") ∧
    pupilCoordsFromPixelCoords (some c) chips incl (.npArr xs) (.npArr ys) =
      .error ("You passed " ++ toString xs.length ++ " xPix coordinates but " ++
        toString ys.length ++ " yPix coordinates to pupilCoordsFromPixelCoords") ∧
    _raDecFromPixelCoords skyInv (some c) (some (mkObs pra pdc m r)) ep chips incl
      (.npArr xs) (.npArr ys) =
      .error ("You passed " ++ toString xs.length ++ " xPix coordinates but " ++
        toString ys.length ++ " yPix coordinates to raDecFromPixelCoords") ∧
    chipNameFromPupilCoords (some c) (.pyList xl) (.npArr ys) =
      .error "The arg xPupil is not a numpy array" ∧
    chipNameFromPupilCoords (some c) (.npArr xl) (.pyList yl) =
      .error "The input arguments: yPupil are not numpy arrays" ∧
    _chipNameFromRaDec sky (some c) (some (mkObs pra pdc m r)) ep
      (.pyList xl) (.npArr ys) = .error "The arg ra is not a numpy array" ∧
    _chipNameFromRaDec sky (some c) (some (mkObs pra pdc m r)) ep
      (.npArr xl) (.pyList yl) =
      .error "The input arguments: Dec are not numpy arrays" ∧
    pixelCoordsFromPupilCoords (some c) chips incl (.pyList xl) (.npArr ys) =
      .error "The arg xPupil is not a numpy array" ∧
    pixelCoordsFromPupilCoords (some c) chips incl (.npArr xl) (.pyList yl) =
      .error "The input arguments: yPupil are not numpy arrays" ∧
    _pixelCoordsFromRaDec sky (some c) (some (mkObs pra pdc m r)) ep chips incl
      (.pyList xl) (.npArr ys) =
      .error "You need to pass numpy arrays of RA and Dec to pixelCoordsFromRaDec" ∧
    focalPlaneCoordsFromPupilCoords (some c) (.pyList xl) (.npArr ys) =
      .error "You must pass numpy arrays of xPupil and yPupil to focalPlaneCoordsFromPupilCoords" ∧
    _focalPlaneCoordsFromRaDec sky (some c) (some (mkObs pra pdc m r)) ep
      (.pyList xl) (.npArr ys) =
      .error "You must pass numpy arrays of RA and Dec to focalPlaneCoordsFromRaDec" ∧
    pupilCoordsFromPixelCoords (some c) chips incl (.pyList xl) (.npArr ys) =
      .error "You must pass numpy arrays of xPix and yPix to pupilCoordsFromPixelCoords" ∧
    _raDecFromPixelCoords skyInv (some c) (some (mkObs pra pdc m r)) ep chips incl
      (.pyList xl) (.npArr ys) =
      .error "You must pass numpy arrays of xPix and yPix to raDecFromPixelCoords" ∧
    chipNameFromPupilCoords none (.npArr xs) (.npArr xs) =
      .error noCameraChipMsg ∧
    _chipNameFromRaDec sky none (some (mkObs pra pdc m r)) ep
      (.npArr xs) (.npArr xs) = .error noCameraChipMsg ∧
    pixelCoordsFromPupilCoords none chips incl (.npArr xs) (.npArr xs) =
      .error noCameraPixMsg ∧
    _pixelCoordsFromRaDec sky none (some (mkObs pra pdc m r)) ep chips incl
      (.npArr xs) (.npArr xs) = .error noCameraPixMsg ∧
    focalPlaneCoordsFromPupilCoords none (.npArr xs) (.npArr xs) =
      .error "You cannot calculate focal plane coordinates without specifying a camera" ∧
    _focalPlaneCoordsFromRaDec sky none (some (mkObs pra pdc m r)) ep
      (.npArr xs) (.npArr xs) =
      .error "You cannot calculate focal plane coordinates without specifying a camera" ∧
    pupilCoordsFromPixelCoords none chips incl (.npArr xs) (.npArr xs) =
      .error "You cannot call pupilCoordsFromPixelCoords without specifying a camera" ∧
    _raDecFromPixelCoords skyInv none (some (mkObs pra pdc m r)) ep chips incl
      xp yp = .error "You cannot call raDecFromPixelCoords without specifying a camera" ∧
    _chipNameFromRaDec sky (some c) none ep (.npArr xs) (.npArr xs) =
      .error "You need to pass an ObservationMetaData into chipName" ∧
    _pixelCoordsFromRaDec sky (some c) none ep chips incl
      (.npArr xs) (.npArr xs) =
      .error "You need to pass an ObservationMetaData into pixelCoordsFromRaDec" ∧
    _focalPlaneCoordsFromRaDec sky (some c) none ep (.npArr xs) (.npArr xs) =
      .error "You have to specify an ObservationMetaData to run focalPlaneCoordsFromRaDec" ∧
    _raDecFromPixelCoords skyInv (some c) none ep chips incl xp yp =
      .error "You cannot call raDecFromPixelCoords without an ObservationMetaData" ∧
    _chipNameFromRaDec sky (some c) (some ⟨pra, pdc, none, some r⟩) ep
      (.npArr xs) (.npArr xs) =
      .error "You need to pass an ObservationMetaData with an mjd into chipName" ∧
    _pixelCoordsFromRaDec sky (some c) (some ⟨pra, pdc, none, some r⟩) ep chips incl
      (.npArr xs) (.npArr xs) =
      .error "You need to pass an ObservationMetaData with an mjd into pixelCoordsFromRaDec" ∧
    _focalPlaneCoordsFromRaDec sky (some c) (some ⟨pra, pdc, none, some r⟩) ep
      (.npArr xs) (.npArr xs) =
      .error "You need to pass an ObservationMetaData with an mjd into focalPlaneCoordsFromRaDec" ∧
    _raDecFromPixelCoords skyInv (some c) (some ⟨pra, pdc, none, some r⟩) ep
      chips incl xp yp =
      .error "The ObservationMetaData in raDecFromPixelCoords must have an mjd" ∧
    _chipNameFromRaDec sky (some c) (some ⟨pra, pdc, some m, none⟩) ep
      (.npArr xs) (.npArr xs) =
      .error "You need to pass an ObservationMetaData with a rotSkyPos into chipName" ∧
    _pixelCoordsFromRaDec sky (some c) (some ⟨pra, pdc, some m, none⟩) ep chips incl
      (.npArr xs) (.npArr xs) =
      .error "You need to pass an ObservationMetaData with a rotSkyPos into pixelCoordsFromRaDec" ∧
    _focalPlaneCoordsFromRaDec sky (some c) (some ⟨pra, pdc, some m, none⟩) ep
      (.npArr xs) (.npArr xs) =
      .error "You need to pass an ObservationMetaData with a rotSkyPos into focalPlaneCoordsFromRaDec" ∧
    _raDecFromPixelCoords skyInv (some c) (some ⟨pra, pdc, some m, none⟩) ep
      chips incl xp yp =
      .error "The ObservationMetaData in raDecFromPixelCoords must have a rotSkyPos" := by
  refine ⟨by simp [chipNameFromPupilCoords, hne],
    by simp [_chipNameFromRaDec, mkObs, hne],
    by simp [pixelCoordsFromPupilCoords, hne],
    by simp [_pixelCoordsFromRaDec, mkObs, hne],
    by simp [focalPlaneCoordsFromPupilCoords, hne],
    by simp [_focalPlaneCoordsFromRaDec, mkObs, hne],
    by simp [pupilCoordsFromPixelCoords, hne],
    by simp [_raDecFromPixelCoords, mkObs, hne],
    rfl, rfl, rfl, rfl, rfl, rfl, rfl, rfl, rfl, rfl, rfl,
    by simp [chipNameFromPupilCoords],
    by simp [_chipNameFromRaDec, mkObs],
    by simp [pixelCoordsFromPupilCoords],
    by simp [_pixelCoordsFromRaDec, mkObs],
    by simp [focalPlaneCoordsFromPupilCoords],
    by simp [_focalPlaneCoordsFromRaDec, mkObs],
    by simp [pupilCoordsFromPixelCoords],
    rfl,
    by simp [_chipNameFromRaDec],
    by simp [_pixelCoordsFromRaDec],
    by simp [_focalPlaneCoordsFromRaDec],
    rfl,
    by simp [_chipNameFromRaDec],
    by simp [_pixelCoordsFromRaDec],
    by simp [_focalPlaneCoordsFromRaDec],
    rfl,
    by simp [_chipNameFromRaDec],
    by simp [_pixelCoordsFromRaDec],
    by simp [_focalPlaneCoordsFromRaDec],
    rfl⟩

/-- Witness for C3 (amended) at a concrete mismatched call. -/
theorem claim_C3_witness :
    chipNameFromPupilCoords (some testCamera)
      (.npArr [some 1, some 2]) (.npArr [some 3]) = .error chipPupLenMsg :=
  (claim_C3_validation_errors (fun a b => (a, b)) (fun a b => (a, b)) testCamera
    none none 0 0 none .auto true [some 1, some 2] [some 3] [] []
    (.npArr []) (.npArr []) (by norm_num)).1

/-- Modelled from the spec: the site parameters consumed by the refraction
primitive; all fields are required together. -/
structure Site where
  latitude : ℚ
  longitude : ℚ
  height : ℚ
  meanTemperature : ℚ
  meanPressure : ℚ
  lapseRate : ℚ

/-- The portion of the observation context that the Reduction Engine reads: the
modified Julian date and the observing site, each possibly absent. -/
structure RedObs where
  mjd : Option ℚ
  site : Option Site

/-- Modelled from the spec: `refractionCoefficients(wavelength, site)` — the two
refraction-coefficient constants computed by the external astrometry kernel
`rc`; fails with an input-error when the site is omitted. -/
def refractionCoefficients (rc : ℚ → Site → ℚ × ℚ) (wavelength : ℚ)
    (site : Option Site) : Except String (ℚ × ℚ) :=
  match site with
  | none => .error "You need to pass a Site into refractionCoefficients"
  | some st => .ok (rc wavelength st)

/-- Lift a six-argument astrometry kernel at a fixed mjd to NaN-capable values:
a NaN in any input component yields NaN outputs. -/
def pm6Point (k : ℚ → ℚ → ℚ → ℚ → ℚ → ℚ → ℚ → ℚ × ℚ) (m : ℚ)
    (a b c d e f : Val) : Val × Val :=
  match a, b, c, d, e, f with
  | some a, some b, some c, some d, some e, some f =>
    (some (k m a b c d e f).1, some (k m a b c d e f).2)
  | _, _, _, _, _, _ => (none, none)

/-- Apply a six-argument per-element map across six parallel value arrays. -/
def map6 (g : Val → Val → Val → Val → Val → Val → Val × Val) :
    List Val → List Val → List Val → List Val → List Val → List Val →
      List (Val × Val)
  | a :: as, b :: bs, c :: cs, d :: ds, e :: es, f :: fs =>
    g a b c d e f :: map6 g as bs cs ds es fs
  | _, _, _, _, _, _ => []

/-- Shared container/shape validation of the six-array Reduction Engine
operations: plain lists are rejected, all six arrays must have one length, a
scalar-only call demotes the result to scalars, and the per-element map is
applied pointwise. -/
def sixArrayEngine (listMsg lenMsg : String)
    (g : Val → Val → Val → Val → Val → Val → Val × Val)
    (ra dec pmRa pmDec parallax vrad : PyArg) : Except String CoordOut :=
  if ra.isPyList || dec.isPyList || pmRa.isPyList || pmDec.isPyList ||
      parallax.isPyList || vrad.isPyList then .error listMsg
  else if dec.vals.length = ra.vals.length then
    if pmRa.vals.length = ra.vals.length then
      if pmDec.vals.length = ra.vals.length then
        if parallax.vals.length = ra.vals.length then
          if vrad.vals.length = ra.vals.length then
            .ok (mkCoordOut (ra.isScalar && dec.isScalar && pmRa.isScalar &&
              pmDec.isScalar && parallax.isScalar && vrad.isScalar)
              (map6 g ra.vals dec.vals pmRa.vals pmDec.vals parallax.vals
                vrad.vals))
          else .error lenMsg
        else .error lenMsg
      else .error lenMsg
    else .error lenMsg
  else .error lenMsg

/-- Modelled from the spec: `applyPrecession(ra, dec, mjd)` of the Reduction
Engine — the precession/nutation rotation kernel `prec` (external astrometry
collaborator) applied per element; fails with an input-error when mjd is
omitted, a plain list is passed, or the arrays mismatch in length. -/
def applyPrecession (prec : ℚ → ℚ → ℚ → ℚ × ℚ) (mjd : Option ℚ)
    (ra dec : PyArg) : Except String CoordOut :=
  match mjd with
  | none => .error "You need to pass an mjd into applyPrecession"
  | some m =>
    if ra.isPyList || dec.isPyList then
      .error "You must pass numpy arrays of RA and Dec to applyPrecession"
    else if ra.vals.length = dec.vals.length then
      .ok (mkCoordOut (ra.isScalar && dec.isScalar)
        ((ra.vals.zip dec.vals).map (fun p => skyVal (prec m) p.1 p.2)))
    else .error "The arrays input to applyPrecession all need to have the same length"

/-- Modelled from the spec: `applyProperMotion(ra, dec, pm_ra, pm_dec, parallax,
v_rad, mjd)` — the proper-motion/parallax kernel `pmk` applied per element
across six parallel arrays; fails when mjd is omitted, any argument is a plain
list, or any lengths differ. -/
def applyProperMotion (pmk : ℚ → ℚ → ℚ → ℚ → ℚ → ℚ → ℚ → ℚ × ℚ)
    (mjd : Option ℚ) (ra dec pmRa pmDec parallax vrad : PyArg) :
    Except String CoordOut :=
  match mjd with
  | none => .error "You need to pass an mjd into applyProperMotion"
  | some m =>
    sixArrayEngine
      "You must pass numpy arrays into applyProperMotion"
      "The arrays input to applyProperMotion all need to have the same length"
      (pm6Point pmk m) ra dec pmRa pmDec parallax vrad

/-- Modelled from the spec: `appGeoFromICRS(...)` — the composed proper motion +
parallax + aberration + precession kernel `agk`, applied per element; the
canonical single entry point feeding the observed stage. -/
def appGeoFromICRS (agk : ℚ → ℚ → ℚ → ℚ → ℚ → ℚ → ℚ → ℚ × ℚ)
    (mjd : Option ℚ) (ra dec pmRa pmDec parallax vrad : PyArg) :
    Except String CoordOut :=
  match mjd with
  | none => .error "You need to pass an mjd into appGeoFromICRS"
  | some m =>
    sixArrayEngine
      "You must pass numpy arrays into appGeoFromICRS"
      "The arrays input to appGeoFromICRS all need to have the same length"
      (pm6Point agk m) ra dec pmRa pmDec parallax vrad

/-- Modelled from the spec: `observedFromAppGeo(ra, dec, obsContext,
includeRefraction, wavelength)` (the returnAltAz=false path) — the topocentric
rotation with optional refraction, through the external kernel `oagk`; fails
when the observation context or its site or mjd is missing, or on list/length
violations. -/
def observedFromAppGeo (oagk : ℚ → Site → Bool → ℚ → ℚ → ℚ → ℚ × ℚ)
    (obs : Option RedObs) (includeRefraction : Bool) (wavelength : ℚ)
    (ra dec : PyArg) : Except String CoordOut :=
  match obs with
  | none => .error "You need to pass an ObservationMetaData into observedFromAppGeo"
  | some o =>
    match o.mjd with
    | none => .error "You need to pass an ObservationMetaData with an mjd into observedFromAppGeo"
    | some m =>
      match o.site with
      | none => .error "You need to pass an ObservationMetaData with a site into observedFromAppGeo"
      | some st =>
        if ra.isPyList || dec.isPyList then
          .error "You must pass numpy arrays of RA and Dec to observedFromAppGeo"
        else if ra.vals.length = dec.vals.length then
          .ok (mkCoordOut (ra.isScalar && dec.isScalar)
            ((ra.vals.zip dec.vals).map (fun p =>
              skyVal (fun x y => oagk m st includeRefraction wavelength x y)
                p.1 p.2)))
        else .error "The arrays input to observedFromAppGeo all need to have the same length"

/-- The per-element composite of appGeoFromICRS and observedFromAppGeo, the body
of observedFromICRS. -/
def observedICRSPoint (agk : ℚ → ℚ → ℚ → ℚ → ℚ → ℚ → ℚ → ℚ × ℚ)
    (oagk : ℚ → Site → Bool → ℚ → ℚ → ℚ → ℚ × ℚ) (m : ℚ) (st : Site)
    (ir : Bool) (wl : ℚ) (a b c d e f : Val) : Val × Val :=
  skyVal (fun x y => oagk m st ir wl x y)
    (pm6Point agk m a b c d e f).1 (pm6Point agk m a b c d e f).2

/-- Modelled from the spec: `observedFromICRS(...)` — the full chain
appGeoFromICRS then observedFromAppGeo; fails when epoch or the observation
context is missing, or the context lacks the mjd (or the site the inner observed
stage reads). -/
def observedFromICRS (agk : ℚ → ℚ → ℚ → ℚ → ℚ → ℚ → ℚ → ℚ × ℚ)
    (oagk : ℚ → Site → Bool → ℚ → ℚ → ℚ → ℚ × ℚ) (obs : Option RedObs)
    (epoch : Option ℚ) (ir : Bool) (wl : ℚ)
    (ra dec pmRa pmDec parallax vrad : PyArg) : Except String CoordOut :=
  match epoch with
  | none => .error "You need to pass an epoch into observedFromICRS"
  | some _ =>
    match obs with
    | none => .error "You need to pass an ObservationMetaData into observedFromICRS"
    | some o =>
      match o.mjd with
      | none => .error "You need to pass an ObservationMetaData with an mjd into observedFromICRS"
      | some m =>
        match o.site with
        | none => .error "You need to pass an ObservationMetaData with a site into observedFromICRS"
        | some st =>
          sixArrayEngine
            "You must pass numpy arrays into observedFromICRS"
            "The arrays input to observedFromICRS all need to have the same length"
            (observedICRSPoint agk oagk m st ir wl)
            ra dec pmRa pmDec parallax vrad

/-- Modelled from the spec: the arcseconds-to-radians scaling applied by the
degree boundary forms to proper motions and parallaxes given in arcseconds;
like `np.radians` it casts a plain list into a numpy array. -/
def arcsecToRadArg : PyArg → PyArg
  | .scalar v => .scalar (v.map (fun q => q * arcsecRad))
  | .npArr vs => .npArr (vs.map (Option.map (fun q => q * arcsecRad)))
  | .pyList vs => .npArr (vs.map (Option.map (fun q => q * arcsecRad)))

/-- Modelled from the spec: the degrees boundary form of applyPrecession — a thin
wrapper converting its inputs to radians and its result back to degrees. -/
def applyPrecessionDegrees (prec : ℚ → ℚ → ℚ → ℚ × ℚ) (mjd : Option ℚ)
    (ra dec : PyArg) : Except String CoordOut :=
  (applyPrecession prec mjd (degToRadArg ra) (degToRadArg dec)).map coordOutToDeg

/-- Modelled from the spec: the degrees boundary form of applyProperMotion. -/
def applyProperMotionDegrees (pmk : ℚ → ℚ → ℚ → ℚ → ℚ → ℚ → ℚ → ℚ × ℚ)
    (mjd : Option ℚ) (ra dec pmRa pmDec parallax vrad : PyArg) :
    Except String CoordOut :=
  (applyProperMotion pmk mjd (degToRadArg ra) (degToRadArg dec)
    (arcsecToRadArg pmRa) (arcsecToRadArg pmDec) (arcsecToRadArg parallax)
    vrad).map coordOutToDeg

/-- Modelled from the spec: the degrees boundary form of appGeoFromICRS. -/
def appGeoFromICRSDegrees (agk : ℚ → ℚ → ℚ → ℚ → ℚ → ℚ → ℚ → ℚ × ℚ)
    (mjd : Option ℚ) (ra dec pmRa pmDec parallax vrad : PyArg) :
    Except String CoordOut :=
  (appGeoFromICRS agk mjd (degToRadArg ra) (degToRadArg dec)
    (arcsecToRadArg pmRa) (arcsecToRadArg pmDec) (arcsecToRadArg parallax)
    vrad).map coordOutToDeg

/-- Modelled from the spec: the degrees boundary form of observedFromAppGeo. -/
def observedFromAppGeoDegrees (oagk : ℚ → Site → Bool → ℚ → ℚ → ℚ → ℚ × ℚ)
    (obs : Option RedObs) (ir : Bool) (wl : ℚ) (ra dec : PyArg) :
    Except String CoordOut :=
  (observedFromAppGeo oagk obs ir wl (degToRadArg ra) (degToRadArg dec)).map
    coordOutToDeg

/-- Modelled from the spec: the degrees boundary form of observedFromICRS. -/
def observedFromICRSDegrees (agk : ℚ → ℚ → ℚ → ℚ → ℚ → ℚ → ℚ → ℚ × ℚ)
    (oagk : ℚ → Site → Bool → ℚ → ℚ → ℚ → ℚ × ℚ) (obs : Option RedObs)
    (epoch : Option ℚ) (ir : Bool) (wl : ℚ)
    (ra dec pmRa pmDec parallax vrad : PyArg) : Except String CoordOut :=
  (observedFromICRS agk oagk obs epoch ir wl (degToRadArg ra) (degToRadArg dec)
    (arcsecToRadArg pmRa) (arcsecToRadArg pmDec) (arcsecToRadArg parallax)
    vrad).map coordOutToDeg

/-- The four pixel-bounds corners of a detector, in the order asserted by the
tests: (min,min), (min,max), (max,min), (max,max). -/
def cornerPixelList (d : Detector) : List (ℚ × ℚ) :=
  [(d.pixMinX, d.pixMinY), (d.pixMinX, d.pixMaxY),
   (d.pixMaxX, d.pixMinY), (d.pixMaxX, d.pixMaxY)]

/-- Modelled from the spec: `getCornerPixels(detectorId, camera)` — a detector's
four pixel-bounds corners obtained from the camera model. -/
def getCornerPixels (camera : Option Camera) (nm : String) :
    Except String (List (ℚ × ℚ)) :=
  match camera with
  | none => .error "You cannot call getCornerPixels without specifying a camera"
  | some c =>
    match findDet c nm with
    | some d => .ok (cornerPixelList d)
    | none => .error ("There is no detector named " ++ nm ++ " in your camera")

/-- Modelled from the spec: the radians form `_getCornerRaDec` — the detector's
corner pixels pushed back through the inverse pixel-to-sky chain
(_raDecFromPixelCoords with that detector's name and distortion included). -/
def _getCornerRaDec (skyInv : ℚ → ℚ → ℚ × ℚ) (camera : Option Camera)
    (obs : Option ObsMeta) (nm : String) : Except String CoordOut :=
  match getCornerPixels camera nm with
  | .error e => .error e
  | .ok corners =>
    _raDecFromPixelCoords skyInv camera obs (some 2000) (.one nm) true
      (.npArr (corners.map (fun p => some p.1)))
      (.npArr (corners.map (fun p => some p.2)))

/-- Modelled from the spec: the degrees form `getCornerRaDec`, delegating to the
radians form and converting its outputs to degrees. -/
def getCornerRaDec (skyInv : ℚ → ℚ → ℚ × ℚ) (camera : Option Camera)
    (obs : Option ObsMeta) (nm : String) : Except String CoordOut :=
  (_getCornerRaDec skyInv camera obs nm).map coordOutToDeg

lemma arcsecRad_ne : arcsecRad ≠ 0 := ne_of_gt arcsecRad_pos

lemma map6_getD (g : Val → Val → Val → Val → Val → Val → Val × Val) :
    ∀ (as bs cs ds es fs : List Val) (i : Nat),
      i < as.length → i < bs.length → i < cs.length → i < ds.length →
      i < es.length → i < fs.length →
      (map6 g as bs cs ds es fs).getD i (none, none) =
        g (as.getD i none) (bs.getD i none) (cs.getD i none) (ds.getD i none)
          (es.getD i none) (fs.getD i none)
  | [], _, _, _, _, _, _, ha, _, _, _, _, _ => by simp at ha
  | _ :: _, [], _, _, _, _, _, _, hb, _, _, _, _ => by simp at hb
  | _ :: _, _ :: _, [], _, _, _, _, _, _, hc, _, _, _ => by simp at hc
  | _ :: _, _ :: _, _ :: _, [], _, _, _, _, _, _, hd, _, _ => by simp at hd
  | _ :: _, _ :: _, _ :: _, _ :: _, [], _, _, _, _, _, _, he, _ => by simp at he
  | _ :: _, _ :: _, _ :: _, _ :: _, _ :: _, [], _, _, _, _, _, _, hf => by simp at hf
  | a :: as, b :: bs, c :: cs, d :: ds, e :: es, f :: fs, 0, _, _, _, _, _, _ => by
    simp [map6]
  | a :: as, b :: bs, c :: cs, d :: ds, e :: es, f :: fs, i + 1,
      ha, hb, hc, hd, he, hf => by
    simp only [map6, List.getD_cons_succ]
    exact map6_getD g as bs cs ds es fs i (by simpa using ha) (by simpa using hb)
      (by simpa using hc) (by simpa using hd) (by simpa using he)
      (by simpa using hf)

lemma sixArrayEngine_arr_eval (listMsg lenMsg : String)
    (g : Val → Val → Val → Val → Val → Val → Val × Val)
    (as bs cs ds es fs : List Val) (hb : bs.length = as.length)
    (hc : cs.length = as.length) (hd : ds.length = as.length)
    (he : es.length = as.length) (hf : fs.length = as.length) :
    sixArrayEngine listMsg lenMsg g (.npArr as) (.npArr bs) (.npArr cs)
      (.npArr ds) (.npArr es) (.npArr fs) =
      .ok (.arr (map6 g as bs cs ds es fs)) := by
  simp [sixArrayEngine, hb, hc, hd, he, hf]

lemma sixArrayEngine_scalar_eval (listMsg lenMsg : String)
    (g : Val → Val → Val → Val → Val → Val → Val × Val) (a b c d e f : Val) :
    sixArrayEngine listMsg lenMsg g (.scalar a) (.scalar b) (.scalar c)
      (.scalar d) (.scalar e) (.scalar f) =
      .ok (.scalar (g a b c d e f).1 (g a b c d e f).2) := by
  simp [sixArrayEngine, map6]

lemma applyPrecession_arr_eval (prec : ℚ → ℚ → ℚ → ℚ × ℚ) (m : ℚ)
    (xs ys : List Val) (hlen : xs.length = ys.length) :
    applyPrecession prec (some m) (.npArr xs) (.npArr ys) =
      .ok (.arr ((xs.zip ys).map (fun p => skyVal (prec m) p.1 p.2))) := by
  simp [applyPrecession, hlen]

lemma applyPrecession_scalar_eval (prec : ℚ → ℚ → ℚ → ℚ × ℚ) (m : ℚ)
    (v w : Val) :
    applyPrecession prec (some m) (.scalar v) (.scalar w) =
      .ok (.scalar (skyVal (prec m) v w).1 (skyVal (prec m) v w).2) := by
  simp [applyPrecession]

lemma applyProperMotion_arr_eval (pmk : ℚ → ℚ → ℚ → ℚ → ℚ → ℚ → ℚ → ℚ × ℚ)
    (m : ℚ) (as bs cs ds es fs : List Val) (hb : bs.length = as.length)
    (hc : cs.length = as.length) (hd : ds.length = as.length)
    (he : es.length = as.length) (hf : fs.length = as.length) :
    applyProperMotion pmk (some m) (.npArr as) (.npArr bs) (.npArr cs)
      (.npArr ds) (.npArr es) (.npArr fs) =
      .ok (.arr (map6 (pm6Point pmk m) as bs cs ds es fs)) := by
  show sixArrayEngine _ _ _ _ _ _ _ _ _ = _
  exact sixArrayEngine_arr_eval _ _ _ as bs cs ds es fs hb hc hd he hf

lemma applyProperMotion_scalar_eval (pmk : ℚ → ℚ → ℚ → ℚ → ℚ → ℚ → ℚ → ℚ × ℚ)
    (m : ℚ) (a b c d e f : Val) :
    applyProperMotion pmk (some m) (.scalar a) (.scalar b) (.scalar c)
      (.scalar d) (.scalar e) (.scalar f) =
      .ok (.scalar (pm6Point pmk m a b c d e f).1
        (pm6Point pmk m a b c d e f).2) := by
  show sixArrayEngine _ _ _ _ _ _ _ _ _ = _
  exact sixArrayEngine_scalar_eval _ _ _ a b c d e f

lemma appGeoFromICRS_arr_eval (agk : ℚ → ℚ → ℚ → ℚ → ℚ → ℚ → ℚ → ℚ × ℚ)
    (m : ℚ) (as bs cs ds es fs : List Val) (hb : bs.length = as.length)
    (hc : cs.length = as.length) (hd : ds.length = as.length)
    (he : es.length = as.length) (hf : fs.length = as.length) :
    appGeoFromICRS agk (some m) (.npArr as) (.npArr bs) (.npArr cs)
      (.npArr ds) (.npArr es) (.npArr fs) =
      .ok (.arr (map6 (pm6Point agk m) as bs cs ds es fs)) := by
  show sixArrayEngine _ _ _ _ _ _ _ _ _ = _
  exact sixArrayEngine_arr_eval _ _ _ as bs cs ds es fs hb hc hd he hf

lemma appGeoFromICRS_scalar_eval (agk : ℚ → ℚ → ℚ → ℚ → ℚ → ℚ → ℚ → ℚ × ℚ)
    (m : ℚ) (a b c d e f : Val) :
    appGeoFromICRS agk (some m) (.scalar a) (.scalar b) (.scalar c)
      (.scalar d) (.scalar e) (.scalar f) =
      .ok (.scalar (pm6Point agk m a b c d e f).1
        (pm6Point agk m a b c d e f).2) := by
  show sixArrayEngine _ _ _ _ _ _ _ _ _ = _
  exact sixArrayEngine_scalar_eval _ _ _ a b c d e f

lemma observedFromAppGeo_arr_eval (oagk : ℚ → Site → Bool → ℚ → ℚ → ℚ → ℚ × ℚ)
    (m : ℚ) (st : Site) (ir : Bool) (wl : ℚ) (xs ys : List Val)
    (hlen : xs.length = ys.length) :
    observedFromAppGeo oagk (some ⟨some m, some st⟩) ir wl
      (.npArr xs) (.npArr ys) =
      .ok (.arr ((xs.zip ys).map (fun p =>
        skyVal (fun x y => oagk m st ir wl x y) p.1 p.2))) := by
  simp [observedFromAppGeo, hlen]

lemma observedFromAppGeo_scalar_eval (oagk : ℚ → Site → Bool → ℚ → ℚ → ℚ → ℚ × ℚ)
    (m : ℚ) (st : Site) (ir : Bool) (wl : ℚ) (v w : Val) :
    observedFromAppGeo oagk (some ⟨some m, some st⟩) ir wl
      (.scalar v) (.scalar w) =
      .ok (.scalar (skyVal (fun x y => oagk m st ir wl x y) v w).1
        (skyVal (fun x y => oagk m st ir wl x y) v w).2) := by
  simp [observedFromAppGeo]

lemma observedFromICRS_arr_eval (agk : ℚ → ℚ → ℚ → ℚ → ℚ → ℚ → ℚ → ℚ × ℚ)
    (oagk : ℚ → Site → Bool → ℚ → ℚ → ℚ → ℚ × ℚ) (m epq : ℚ) (st : Site)
    (ir : Bool) (wl : ℚ) (as bs cs ds es fs : List Val)
    (hb : bs.length = as.length) (hc : cs.length = as.length)
    (hd : ds.length = as.length) (he : es.length = as.length)
    (hf : fs.length = as.length) :
    observedFromICRS agk oagk (some ⟨some m, some st⟩) (some epq) ir wl
      (.npArr as) (.npArr bs) (.npArr cs) (.npArr ds) (.npArr es) (.npArr fs) =
      .ok (.arr (map6 (observedICRSPoint agk oagk m st ir wl)
        as bs cs ds es fs)) := by
  show sixArrayEngine _ _ _ _ _ _ _ _ _ = _
  exact sixArrayEngine_arr_eval _ _ _ as bs cs ds es fs hb hc hd he hf

lemma observedFromICRS_scalar_eval (agk : ℚ → ℚ → ℚ → ℚ → ℚ → ℚ → ℚ → ℚ × ℚ)
    (oagk : ℚ → Site → Bool → ℚ → ℚ → ℚ → ℚ × ℚ) (m epq : ℚ) (st : Site)
    (ir : Bool) (wl : ℚ) (a b c d e f : Val) :
    observedFromICRS agk oagk (some ⟨some m, some st⟩) (some epq) ir wl
      (.scalar a) (.scalar b) (.scalar c) (.scalar d) (.scalar e) (.scalar f) =
      .ok (.scalar (observedICRSPoint agk oagk m st ir wl a b c d e f).1
        (observedICRSPoint agk oagk m st ir wl a b c d e f).2) := by
  show sixArrayEngine _ _ _ _ _ _ _ _ _ = _
  exact sixArrayEngine_scalar_eval _ _ _ a b c d e f

lemma pixelRaDec_arr_chips_eval (sky : ℚ → ℚ → ℚ × ℚ) (c : Camera)
    (pra pdc : Option ℚ) (m r : ℚ) (ep : Option ℚ) (incl : Bool)
    (xs ys : List Val) (hlen : xs.length = ys.length) (ch : ChipArg)
    (names : List (Option String))
    (hres : resolveChips c "pixelCoordsFromRaDec"
      ((xs.zip ys).map (fun p => skyVal sky p.1 p.2)) ch = .ok names) :
    _pixelCoordsFromRaDec sky (some c) (some (mkObs pra pdc m r)) ep ch incl
      (.npArr xs) (.npArr ys) =
      .ok (.arr (List.zipWith (fun p nm => pixelVal c incl p.1 p.2 nm)
        ((xs.zip ys).map (fun p => skyVal sky p.1 p.2)) names)) := by
  simp [_pixelCoordsFromRaDec, mkObs, hlen, hres]

lemma pixelRaDec_count_error (sky : ℚ → ℚ → ℚ × ℚ) (c : Camera)
    (pra pdc : Option ℚ) (m r : ℚ) (ep : Option ℚ) (incl : Bool)
    (xs ys : List Val) (hlen : xs.length = ys.length)
    (l : List (Option String)) (h1 : l.length ≠ xs.length)
    (h2 : l.length ≠ 1) :
    _pixelCoordsFromRaDec sky (some c) (some (mkObs pra pdc m r)) ep
      (.many l) incl (.npArr xs) (.npArr ys) =
      .error (chipCountMsg "pixelCoordsFromRaDec" xs.length l.length) := by
  have hz : ((xs.zip ys).map (fun p => skyVal sky p.1 p.2)).length = xs.length := by
    simp [List.length_zip, hlen]
  have hr : resolveChips c "pixelCoordsFromRaDec"
      ((xs.zip ys).map (fun p => skyVal sky p.1 p.2)) (.many l) =
      .error (chipCountMsg "pixelCoordsFromRaDec" xs.length l.length) := by
    rw [resolveChips, hz]
    rw [if_neg h1, if_neg h2]
  simp [_pixelCoordsFromRaDec, mkObs, hlen, hr]

/-- C5: feeding N points to a Projection Engine or Reduction Engine routine as
one array call yields, element by element, exactly the results of the N
corresponding scalar calls: whenever an array call succeeds with an output
array, the scalar call on the i-th input returns the i-th output element.
Stated for every modelled Projection Engine entry point and for every
N-point Reduction Engine operation (applyRefraction, applyPrecession,
applyProperMotion, appGeoFromICRS, observedFromAppGeo, observedFromICRS),
each over its external astrometry kernel. -/
theorem claim_C5_scalar_array_consistency (sky skyInv : ℚ → ℚ → ℚ × ℚ)
    (c : Camera) (pra pdc : Option ℚ) (m r : ℚ) (ep : Option ℚ) (incl : Bool)
    (s : String) (refr : ℚ → ℚ → ℚ → ℚ) (tz t3 : ℚ) (zs : List ℚ)
    (prec : ℚ → ℚ → ℚ → ℚ × ℚ)
    (pmk agk : ℚ → ℚ → ℚ → ℚ → ℚ → ℚ → ℚ → ℚ × ℚ)
    (oagk : ℚ → Site → Bool → ℚ → ℚ → ℚ → ℚ × ℚ)
    (st : Site) (ir : Bool) (wl epq : ℚ)
    (xs ys cs ds es fs : List Val) (hlen : xs.length = ys.length)
    (hlc : cs.length = xs.length) (hld : ds.length = xs.length)
    (hle : es.length = xs.length) (hlf : fs.length = xs.length)
    (i : Nat) (hi : i < xs.length) :
    (∀ out, chipNameFromPupilCoords (some c) (.npArr xs) (.npArr ys) =
        .ok (.arr out) →
      chipNameFromPupilCoords (some c) (.scalar (xs.getD i none))
        (.scalar (ys.getD i none)) = .ok (.scalar (out.getD i none))) ∧
    (∀ out, _chipNameFromRaDec sky (some c) (some (mkObs pra pdc m r)) ep
        (.npArr xs) (.npArr ys) = .ok (.arr out) →
      _chipNameFromRaDec sky (some c) (some (mkObs pra pdc m r)) ep
        (.scalar (xs.getD i none)) (.scalar (ys.getD i none)) =
        .ok (.scalar (out.getD i none))) ∧
    (∀ out, pixelCoordsFromPupilCoords (some c) .auto incl
        (.npArr xs) (.npArr ys) = .ok (.arr out) →
      pixelCoordsFromPupilCoords (some c) .auto incl
        (.scalar (xs.getD i none)) (.scalar (ys.getD i none)) =
        .ok (.scalar (out.getD i (none, none)).1 (out.getD i (none, none)).2)) ∧
    (∀ out, pixelCoordsFromPupilCoords (some c) (.one s) incl
        (.npArr xs) (.npArr ys) = .ok (.arr out) →
      pixelCoordsFromPupilCoords (some c) (.one s) incl
        (.scalar (xs.getD i none)) (.scalar (ys.getD i none)) =
        .ok (.scalar (out.getD i (none, none)).1 (out.getD i (none, none)).2)) ∧
    (∀ out, _pixelCoordsFromRaDec sky (some c) (some (mkObs pra pdc m r)) ep
        .auto incl (.npArr xs) (.npArr ys) = .ok (.arr out) →
      _pixelCoordsFromRaDec sky (some c) (some (mkObs pra pdc m r)) ep
        .auto incl (.scalar (xs.getD i none)) (.scalar (ys.getD i none)) =
        .ok (.scalar (out.getD i (none, none)).1 (out.getD i (none, none)).2)) ∧
    (∀ out, focalPlaneCoordsFromPupilCoords (some c) (.npArr xs) (.npArr ys) =
        .ok (.arr out) →
      focalPlaneCoordsFromPupilCoords (some c)
        (.scalar (xs.getD i none)) (.scalar (ys.getD i none)) =
        .ok (.scalar (out.getD i (none, none)).1 (out.getD i (none, none)).2)) ∧
    (∀ out, _focalPlaneCoordsFromRaDec sky (some c) (some (mkObs pra pdc m r)) ep
        (.npArr xs) (.npArr ys) = .ok (.arr out) →
      _focalPlaneCoordsFromRaDec sky (some c) (some (mkObs pra pdc m r)) ep
        (.scalar (xs.getD i none)) (.scalar (ys.getD i none)) =
        .ok (.scalar (out.getD i (none, none)).1 (out.getD i (none, none)).2)) ∧
    (∀ out, pupilCoordsFromPixelCoords (some c) (.one s) incl
        (.npArr xs) (.npArr ys) = .ok (.arr out) →
      pupilCoordsFromPixelCoords (some c) (.one s) incl
        (.scalar (xs.getD i none)) (.scalar (ys.getD i none)) =
        .ok (.scalar (out.getD i (none, none)).1 (out.getD i (none, none)).2)) ∧
    (∀ out, _raDecFromPixelCoords skyInv (some c) (some (mkObs pra pdc m r)) ep
        (.one s) incl (.npArr xs) (.npArr ys) = .ok (.arr out) →
      _raDecFromPixelCoords skyInv (some c) (some (mkObs pra pdc m r)) ep
        (.one s) incl (.scalar (xs.getD i none)) (.scalar (ys.getD i none)) =
        .ok (.scalar (out.getD i (none, none)).1 (out.getD i (none, none)).2)) ∧
    (∀ outz, applyRefraction refr (.zarr zs) tz t3 = .ok (.zarr outz) →
      i < zs.length →
      applyRefraction refr (.zscalar (zs.getD i 0)) tz t3 =
        .ok (.zscalar (outz.getD i 0))) ∧
    (∀ out, applyPrecession prec (some m) (.npArr xs) (.npArr ys) =
        .ok (.arr out) →
      applyPrecession prec (some m) (.scalar (xs.getD i none))
        (.scalar (ys.getD i none)) =
        .ok (.scalar (out.getD i (none, none)).1 (out.getD i (none, none)).2)) ∧
    (∀ out, applyProperMotion pmk (some m) (.npArr xs) (.npArr ys) (.npArr cs)
        (.npArr ds) (.npArr es) (.npArr fs) = .ok (.arr out) →
      applyProperMotion pmk (some m) (.scalar (xs.getD i none))
        (.scalar (ys.getD i none)) (.scalar (cs.getD i none))
        (.scalar (ds.getD i none)) (.scalar (es.getD i none))
        (.scalar (fs.getD i none)) =
        .ok (.scalar (out.getD i (none, none)).1 (out.getD i (none, none)).2)) ∧
    (∀ out, appGeoFromICRS agk (some m) (.npArr xs) (.npArr ys) (.npArr cs)
        (.npArr ds) (.npArr es) (.npArr fs) = .ok (.arr out) →
      appGeoFromICRS agk (some m) (.scalar (xs.getD i none))
        (.scalar (ys.getD i none)) (.scalar (cs.getD i none))
        (.scalar (ds.getD i none)) (.scalar (es.getD i none))
        (.scalar (fs.getD i none)) =
        .ok (.scalar (out.getD i (none, none)).1 (out.getD i (none, none)).2)) ∧
    (∀ out, observedFromAppGeo oagk (some ⟨some m, some st⟩) ir wl
        (.npArr xs) (.npArr ys) = .ok (.arr out) →
      observedFromAppGeo oagk (some ⟨some m, some st⟩) ir wl
        (.scalar (xs.getD i none)) (.scalar (ys.getD i none)) =
        .ok (.scalar (out.getD i (none, none)).1 (out.getD i (none, none)).2)) ∧
    (∀ out, observedFromICRS agk oagk (some ⟨some m, some st⟩) (some epq) ir wl
        (.npArr xs) (.npArr ys) (.npArr cs) (.npArr ds) (.npArr es)
        (.npArr fs) = .ok (.arr out) →
      observedFromICRS agk oagk (some ⟨some m, some st⟩) (some epq) ir wl
        (.scalar (xs.getD i none)) (.scalar (ys.getD i none))
        (.scalar (cs.getD i none)) (.scalar (ds.getD i none))
        (.scalar (es.getD i none)) (.scalar (fs.getD i none)) =
        .ok (.scalar (out.getD i (none, none)).1 (out.getD i (none, none)).2)) := by
  have hiy : i < ys.length := hlen ▸ hi
  refine ⟨?_, ?_, ?_, ?_, ?_, ?_, ?_, ?_, ?_, ?_, ?_, ?_, ?_, ?_, ?_⟩
  · intro out hout
    rw [chipName_arr_eval c xs ys hlen] at hout
    simp only [Except.ok.injEq, NameOut.arr.injEq] at hout
    subst hout
    rw [chipName_scalar_eval_val,
      map_zip_getD (fun a b => chipNameVal c a b) xs ys i hi hiy none none none]
  · intro out hout
    rw [chipNameRaDec_arr_eval sky c pra pdc m r ep xs ys hlen] at hout
    simp only [Except.ok.injEq, NameOut.arr.injEq] at hout
    subst hout
    rw [chipNameRaDec_scalar_eval,
      map_zip_getD (fun a b => chipNamePointRaDec sky c a b) xs ys i hi hiy
        none none none]
  · intro out hout
    rw [pixel_arr_auto_eval c incl xs ys hlen] at hout
    simp only [Except.ok.injEq, CoordOut.arr.injEq] at hout
    subst hout
    rw [pixel_scalar_auto_eval_val,
      map_zip_getD (fun a b => pixelPointAuto c incl a b) xs ys i hi hiy
        none none (none, none)]
  · intro out hout
    rw [pixel_arr_one_eval c incl s xs ys hlen] at hout
    simp only [Except.ok.injEq, CoordOut.arr.injEq] at hout
    subst hout
    rw [pixel_scalar_one_eval,
      map_zip_getD (fun a b => pixelVal c incl a b (some s)) xs ys i hi hiy
        none none (none, none)]
  · intro out hout
    rw [pixelRaDec_arr_auto_eval sky c pra pdc m r ep incl xs ys hlen] at hout
    simp only [Except.ok.injEq, CoordOut.arr.injEq] at hout
    subst hout
    rw [pixelRaDec_scalar_auto_eval,
      map_zip_getD (fun a b => pixelPointRaDec sky c incl a b) xs ys i hi hiy
        none none (none, none)]
  · intro out hout
    rw [focal_arr_eval c xs ys hlen] at hout
    simp only [Except.ok.injEq, CoordOut.arr.injEq] at hout
    subst hout
    rw [focal_scalar_eval,
      map_zip_getD (fun a b => focalVal c a b) xs ys i hi hiy
        none none (none, none)]
  · intro out hout
    rw [focalRaDec_arr_eval sky c pra pdc m r ep xs ys hlen] at hout
    simp only [Except.ok.injEq, CoordOut.arr.injEq] at hout
    subst hout
    rw [focalRaDec_scalar_eval,
      map_zip_getD (fun a b => focalPointRaDec sky c a b) xs ys i hi hiy
        none none (none, none)]
  · intro out hout
    rw [pupilPix_arr_one_eval c incl s xs ys hlen] at hout
    simp only [Except.ok.injEq, CoordOut.arr.injEq] at hout
    subst hout
    rw [pupilPix_scalar_one_eval,
      map_zip_getD (fun a b => pupilFromPixVal c incl a b (some s)) xs ys i hi hiy
        none none (none, none)]
  · intro out hout
    rw [raDecPix_arr_one_eval skyInv c pra pdc m r ep incl s xs ys hlen] at hout
    simp only [Except.ok.injEq, CoordOut.arr.injEq] at hout
    subst hout
    rw [raDecPix_scalar_one_eval,
      map_zip_getD (fun a b => raDecPointFromPix skyInv c incl a b (some s))
        xs ys i hi hiy none none (none, none)]
  · intro outz hout hz
    have hmap : zs.map (refr tz t3) = outz := by
      simpa [applyRefraction] using hout
    subst hmap
    rw [show applyRefraction refr (.zscalar (zs.getD i 0)) tz t3 =
      .ok (.zscalar (refr tz t3 (zs.getD i 0))) from rfl]
    rw [map_getD (refr tz t3) zs i hz 0 0]
  · intro out hout
    rw [applyPrecession_arr_eval prec m xs ys hlen] at hout
    simp only [Except.ok.injEq, CoordOut.arr.injEq] at hout
    subst hout
    rw [applyPrecession_scalar_eval,
      map_zip_getD (fun a b => skyVal (prec m) a b) xs ys i hi hiy
        none none (none, none)]
  · intro out hout
    rw [applyProperMotion_arr_eval pmk m xs ys cs ds es fs hlen.symm hlc hld
      hle hlf] at hout
    simp only [Except.ok.injEq, CoordOut.arr.injEq] at hout
    subst hout
    rw [applyProperMotion_scalar_eval,
      map6_getD (pm6Point pmk m) xs ys cs ds es fs i hi hiy (by omega)
        (by omega) (by omega) (by omega)]
  · intro out hout
    rw [appGeoFromICRS_arr_eval agk m xs ys cs ds es fs hlen.symm hlc hld
      hle hlf] at hout
    simp only [Except.ok.injEq, CoordOut.arr.injEq] at hout
    subst hout
    rw [appGeoFromICRS_scalar_eval,
      map6_getD (pm6Point agk m) xs ys cs ds es fs i hi hiy (by omega)
        (by omega) (by omega) (by omega)]
  · intro out hout
    rw [observedFromAppGeo_arr_eval oagk m st ir wl xs ys hlen] at hout
    simp only [Except.ok.injEq, CoordOut.arr.injEq] at hout
    subst hout
    rw [observedFromAppGeo_scalar_eval,
      map_zip_getD (fun a b => skyVal (fun x y => oagk m st ir wl x y) a b)
        xs ys i hi hiy none none (none, none)]
  · intro out hout
    rw [observedFromICRS_arr_eval agk oagk m epq st ir wl xs ys cs ds es fs
      hlen.symm hlc hld hle hlf] at hout
    simp only [Except.ok.injEq, CoordOut.arr.injEq] at hout
    subst hout
    rw [observedFromICRS_scalar_eval,
      map6_getD (observedICRSPoint agk oagk m st ir wl) xs ys cs ds es fs i hi
        hiy (by omega) (by omega) (by omega) (by omega)]

/-- Witness for C5: a one-point array call and the corresponding scalar call on
the test camera agree at index 0. -/
theorem claim_C5_witness :
    chipNameFromPupilCoords (some testCamera) (.scalar (some 0)) (.scalar (some 0)) =
      .ok (.scalar ([chipNameVal testCamera (some 0) (some 0)].getD 0 none)) :=
  (claim_C5_scalar_array_consistency (fun a b => (a, b)) (fun a b => (a, b))
    testCamera none none 0 0 none true "Det22" (fun _ _ z => z) 0 0 []
    (fun _ a b => (a, b)) (fun _ a b _ _ _ _ => (a, b))
    (fun _ a b _ _ _ _ => (a, b)) (fun _ _ _ _ x y => (x, y))
    ⟨0, 0, 0, 0, 0, 0⟩ true 0 0
    [some 0] [some 0] [some 0] [some 0] [some 0] [some 0]
    rfl rfl rfl rfl rfl 0 (by norm_num)).1
    [chipNameVal testCamera (some 0) (some 0)]
    (by rw [chipName_arr_eval testCamera [some 0] [some 0] rfl]; rfl)

/-- C8: in an N-point call of pixelCoordsFromPupilCoords — and likewise in its
wrappers pixelCoordsFromRaDec and the radians form _pixelCoordsFromRaDec — an
omitted chipNames argument makes the per-point detector be resolved by chip
lookup; a supplied chipNames of length N is used point by point; a single
detector name (bare or as a length-1 list) is broadcast to all N points; any
other length raises an input-error whose message reports both counts
(You passed N points but M chipNames to pixelCoordsFromRaDec, for the
wrappers). -/
theorem claim_C8_chipNames_handling (sky : ℚ → ℚ → ℚ × ℚ) (c : Camera)
    (pra pdc : Option ℚ) (m r : ℚ) (ep : Option ℚ) (incl : Bool) (s : String)
    (l : List (Option String)) (xs ys : List Val)
    (hlen : xs.length = ys.length) :
    pixelCoordsFromPupilCoords (some c) .auto incl (.npArr xs) (.npArr ys) =
      .ok (.arr ((xs.zip ys).map
        (fun p => pixelVal c incl p.1 p.2 (chipNameVal c p.1 p.2)))) ∧
    (l.length = xs.length →
      pixelCoordsFromPupilCoords (some c) (.many l) incl (.npArr xs) (.npArr ys) =
        .ok (.arr (List.zipWith (fun p nm => pixelVal c incl p.1 p.2 nm)
          (xs.zip ys) l))) ∧
    pixelCoordsFromPupilCoords (some c) (.one s) incl (.npArr xs) (.npArr ys) =
      .ok (.arr ((xs.zip ys).map (fun p => pixelVal c incl p.1 p.2 (some s)))) ∧
    pixelCoordsFromPupilCoords (some c) (.many [some s]) incl
      (.npArr xs) (.npArr ys) =
      pixelCoordsFromPupilCoords (some c) (.one s) incl (.npArr xs) (.npArr ys) ∧
    (l.length ≠ xs.length → l.length ≠ 1 →
      pixelCoordsFromPupilCoords (some c) (.many l) incl (.npArr xs) (.npArr ys) =
        .error (chipCountMsg "pixelCoordsFromPupilCoords" xs.length l.length)) ∧
    _pixelCoordsFromRaDec sky (some c) (some (mkObs pra pdc m r)) ep .auto incl
      (.npArr xs) (.npArr ys) =
      .ok (.arr ((xs.zip ys).map
        (fun p => pixelPointRaDec sky c incl p.1 p.2))) ∧
    (l.length = xs.length →
      _pixelCoordsFromRaDec sky (some c) (some (mkObs pra pdc m r)) ep
        (.many l) incl (.npArr xs) (.npArr ys) =
        .ok (.arr (List.zipWith (fun p nm => pixelVal c incl p.1 p.2 nm)
          ((xs.zip ys).map (fun p => skyVal sky p.1 p.2)) l))) ∧
    _pixelCoordsFromRaDec sky (some c) (some (mkObs pra pdc m r)) ep
      (.one s) incl (.npArr xs) (.npArr ys) =
      .ok (.arr (((xs.zip ys).map (fun p => skyVal sky p.1 p.2)).map
        (fun p => pixelVal c incl p.1 p.2 (some s)))) ∧
    _pixelCoordsFromRaDec sky (some c) (some (mkObs pra pdc m r)) ep
      (.many [some s]) incl (.npArr xs) (.npArr ys) =
      _pixelCoordsFromRaDec sky (some c) (some (mkObs pra pdc m r)) ep
        (.one s) incl (.npArr xs) (.npArr ys) ∧
    (l.length ≠ xs.length → l.length ≠ 1 →
      _pixelCoordsFromRaDec sky (some c) (some (mkObs pra pdc m r)) ep
        (.many l) incl (.npArr xs) (.npArr ys) =
        .error (chipCountMsg "pixelCoordsFromRaDec" xs.length l.length)) ∧
    (∀ ch : ChipArg,
      pixelCoordsFromRaDec sky (some c) (some (mkObs pra pdc m r)) ep ch incl
        (.npArr xs) (.npArr ys) =
      _pixelCoordsFromRaDec sky (some c) (some (mkObs pra pdc m r)) ep ch incl
        (.npArr (xs.map degVal)) (.npArr (ys.map degVal))) ∧
    (l.length ≠ xs.length → l.length ≠ 1 →
      pixelCoordsFromRaDec sky (some c) (some (mkObs pra pdc m r)) ep
        (.many l) incl (.npArr xs) (.npArr ys) =
        .error (chipCountMsg "pixelCoordsFromRaDec" xs.length l.length)) := by
  have hz : (xs.zip ys).length = xs.length := by
    simp [List.length_zip, hlen]
  have hz' : ((xs.zip ys).map (fun p => skyVal sky p.1 p.2)).length = xs.length := by
    simp [List.length_zip, hlen]
  refine ⟨?_, ?_, pixel_arr_one_eval c incl s xs ys hlen, ?_, ?_, ?_, ?_, ?_,
    ?_, ?_, fun ch => rfl, ?_⟩
  · rw [pixel_arr_auto_eval c incl xs ys hlen]
    simp [pixelPointAuto]
  · intro hl
    refine pixel_arr_chips_eval c incl xs ys hlen (.many l) l ?_
    simp [resolveChips, hz, hl]
  · simp only [pixelCoordsFromPupilCoords, resolveChips_singleton]
  · intro h1 h2
    have hr : resolveChips c "pixelCoordsFromPupilCoords" (xs.zip ys) (.many l) =
        .error (chipCountMsg "pixelCoordsFromPupilCoords" xs.length l.length) := by
      rw [resolveChips, hz]
      rw [if_neg h1, if_neg h2]
    simp [pixelCoordsFromPupilCoords, hlen, hr]
  · exact pixelRaDec_arr_auto_eval sky c pra pdc m r ep incl xs ys hlen
  · intro hl
    refine pixelRaDec_arr_chips_eval sky c pra pdc m r ep incl xs ys hlen
      (.many l) l ?_
    simp [resolveChips, hz', hl]
  · rw [pixelRaDec_arr_chips_eval sky c pra pdc m r ep incl xs ys hlen (.one s)
      (List.replicate ((xs.zip ys).map (fun p => skyVal sky p.1 p.2)).length
        (some s)) (by simp [resolveChips])]
    rw [zipWith_replicate_ge (fun p nm => pixelVal c incl p.1 p.2 nm) (some s)
      ((xs.zip ys).map (fun p => skyVal sky p.1 p.2))
      ((xs.zip ys).map (fun p => skyVal sky p.1 p.2)).length le_rfl]
  · simp only [_pixelCoordsFromRaDec, resolveChips_singleton]
  · intro h1 h2
    exact pixelRaDec_count_error sky c pra pdc m r ep incl xs ys hlen l h1 h2
  · intro h1 h2
    show _pixelCoordsFromRaDec sky (some c) (some (mkObs pra pdc m r)) ep
      (.many l) incl (.npArr (xs.map degVal)) (.npArr (ys.map degVal)) =
      .error (chipCountMsg "pixelCoordsFromRaDec" xs.length l.length)
    rw [pixelRaDec_count_error sky c pra pdc m r ep incl (xs.map degVal)
      (ys.map degVal) (by simp [hlen]) l (by simpa using h1) h2]
    simp

/-- Witness for C8: broadcasting a single chip name over a one-point array call. -/
theorem claim_C8_witness :
    pixelCoordsFromPupilCoords (some testCamera) (.one "Det40") false
      (.npArr [some 0]) (.npArr [some 0]) =
      .ok (.arr (([some (0:ℚ)].zip [some (0:ℚ)]).map
        (fun p => pixelVal testCamera false p.1 p.2 (some "Det40")))) :=
  (claim_C8_chipNames_handling (fun a b => (a, b)) testCamera none none 0 0 none
    false "Det40" [] [some 0] [some 0] rfl).2.2.1

/-- C6: every modelled degrees-form entry point is related to its radians-form
(underscore-prefixed) counterpart by pure unit conversion: converting the degree
inputs to radians (which also casts plain lists to arrays; proper motions and
parallax convert from arcsec via radiansFromArcsec) and calling the radians
form gives the identical result, raDecFromPixelCoords, getCornerRaDec and the
Reduction Engine degrees forms return exactly the radians result converted to
degrees, and the degree and arcsec unit conversions are exact mutual inverses,
so the two forms agree to (better than) floating-point precision. -/
theorem claim_C6_degrees_radians (sky skyInv : ℚ → ℚ → ℚ × ℚ)
    (camera : Option Camera) (obs : Option ObsMeta) (ep : Option ℚ)
    (chips : ChipArg) (incl : Bool) (xs ys cs ds es : List Val) (v w : Val)
    (xp yp vr : PyArg) (prec : ℚ → ℚ → ℚ → ℚ × ℚ)
    (pmk agk : ℚ → ℚ → ℚ → ℚ → ℚ → ℚ → ℚ → ℚ × ℚ)
    (oagk : ℚ → Site → Bool → ℚ → ℚ → ℚ → ℚ × ℚ)
    (mjd2 : Option ℚ) (robs : Option RedObs) (epo : Option ℚ) (ir : Bool)
    (wl : ℚ) (nm : String) :
    chipNameFromRaDec sky camera obs ep (.npArr xs) (.npArr ys) =
      _chipNameFromRaDec sky camera obs ep
        (.npArr (xs.map degVal)) (.npArr (ys.map degVal)) ∧
    chipNameFromRaDec sky camera obs ep (.scalar v) (.scalar w) =
      _chipNameFromRaDec sky camera obs ep
        (.scalar (degVal v)) (.scalar (degVal w)) ∧
    chipNameFromRaDec sky camera obs ep (.pyList xs) (.pyList ys) =
      chipNameFromRaDec sky camera obs ep (.npArr xs) (.npArr ys) ∧
    pixelCoordsFromRaDec sky camera obs ep chips incl (.npArr xs) (.npArr ys) =
      _pixelCoordsFromRaDec sky camera obs ep chips incl
        (.npArr (xs.map degVal)) (.npArr (ys.map degVal)) ∧
    focalPlaneCoordsFromRaDec sky camera obs ep (.npArr xs) (.npArr ys) =
      _focalPlaneCoordsFromRaDec sky camera obs ep
        (.npArr (xs.map degVal)) (.npArr (ys.map degVal)) ∧
    raDecFromPixelCoords skyInv camera obs ep chips incl xp yp =
      (_raDecFromPixelCoords skyInv camera obs ep chips incl xp yp).map
        coordOutToDeg ∧
    getCornerRaDec skyInv camera obs nm =
      (_getCornerRaDec skyInv camera obs nm).map coordOutToDeg ∧
    applyPrecessionDegrees prec mjd2 (.npArr xs) (.npArr ys) =
      (applyPrecession prec mjd2
        (.npArr (xs.map degVal)) (.npArr (ys.map degVal))).map coordOutToDeg ∧
    applyPrecessionDegrees prec mjd2 (.pyList xs) (.pyList ys) =
      applyPrecessionDegrees prec mjd2 (.npArr xs) (.npArr ys) ∧
    applyProperMotionDegrees pmk mjd2 (.npArr xs) (.npArr ys) (.npArr cs)
      (.npArr ds) (.npArr es) vr =
      (applyProperMotion pmk mjd2
        (.npArr (xs.map degVal)) (.npArr (ys.map degVal))
        (.npArr (cs.map (Option.map (fun q => radiansFromArcsec q))))
        (.npArr (ds.map (Option.map (fun q => radiansFromArcsec q))))
        (.npArr (es.map (Option.map (fun q => radiansFromArcsec q))))
        vr).map coordOutToDeg ∧
    appGeoFromICRSDegrees agk mjd2 (.npArr xs) (.npArr ys) (.npArr cs)
      (.npArr ds) (.npArr es) vr =
      (appGeoFromICRS agk mjd2
        (.npArr (xs.map degVal)) (.npArr (ys.map degVal))
        (.npArr (cs.map (Option.map (fun q => radiansFromArcsec q))))
        (.npArr (ds.map (Option.map (fun q => radiansFromArcsec q))))
        (.npArr (es.map (Option.map (fun q => radiansFromArcsec q))))
        vr).map coordOutToDeg ∧
    observedFromAppGeoDegrees oagk robs ir wl (.npArr xs) (.npArr ys) =
      (observedFromAppGeo oagk robs ir wl
        (.npArr (xs.map degVal)) (.npArr (ys.map degVal))).map coordOutToDeg ∧
    observedFromICRSDegrees agk oagk robs epo ir wl (.npArr xs) (.npArr ys)
      (.npArr cs) (.npArr ds) (.npArr es) vr =
      (observedFromICRS agk oagk robs epo ir wl
        (.npArr (xs.map degVal)) (.npArr (ys.map degVal))
        (.npArr (cs.map (Option.map (fun q => radiansFromArcsec q))))
        (.npArr (ds.map (Option.map (fun q => radiansFromArcsec q))))
        (.npArr (es.map (Option.map (fun q => radiansFromArcsec q))))
        vr).map coordOutToDeg ∧
    (∀ q : ℚ, valToDeg (degVal (some q)) = some q ∧
      degVal (valToDeg (some q)) = some q) ∧
    (∀ q : ℚ, radiansFromArcsec q / arcsecRad = q ∧
      radiansFromArcsec (q / arcsecRad) = q) := by
  refine ⟨rfl, rfl, rfl, rfl, rfl, rfl, rfl, rfl, rfl, rfl, rfl, rfl, rfl,
    ?_, ?_⟩
  · intro q
    constructor
    · show some (q * degRad / degRad) = some q
      rw [mul_div_cancel_right₀ q degRad_ne]
    · show some (q / degRad * degRad) = some q
      rw [div_mul_cancel₀ q degRad_ne]
  · intro q
    constructor
    · show q * arcsecRad / arcsecRad = q
      rw [mul_div_cancel_right₀ q arcsecRad_ne]
    · show q / arcsecRad * arcsecRad = q
      rw [div_mul_cancel₀ q arcsecRad_ne]
